import Mathlib

/-!
# WordClock 16x16: the time manager (`src/TimeManager.cpp`, `src/TimeManager.h`)

A shallow embedding of `TimeManager` and the properties of its event handlers.

* The member variables of the class are the record `TimeManager`.
* Everything the class calls but does not define (the C library clock, the
  `ESPNtpClient` object `NTP`, the `Settings` store, the communication manager,
  `DateTime.h`, `Serialize.h`, the configuration tables) is a `Platform` over a
  device state `D`: reads are functions of the device state, and every call with
  an effect is recorded in a log and handed to the platform, which answers with
  the next device state.
* `LOG(...)` lines are left out: they have no effect on the manager or the devices
  modelled here.
* `GetNtpTime` hands `sscanf` the addresses of one-byte and two-byte locals for `%d`, which
  stores four bytes. The stores are followed byte by byte over a `Frame`, the offsets of the
  six locals, which the platform supplies; bytes that land outside the six locals are not
  followed.
-/

namespace DateTimeNS

/-- Calendar date, used as `mDate.mDay`, `mDate.mMonth` (8 bit) and `mDate.mYear` (16 bit). -/
structure tDate where
  mDay : Nat
  mMonth : Nat
  mYear : Nat
deriving DecidableEq, Repr

/-- Time of day, used as `mTime.mHour`, `mTime.mMinute`, `mTime.mSecond` (8 bit each). -/
structure tTime where
  mHour : Nat
  mMinute : Nat
  mSecond : Nat
deriving DecidableEq, Repr

/-- Value type `DateTimeNS::tDateTime` as the manager uses it. -/
structure tDateTime where
  mDate : tDate
  mTime : tTime
deriving DecidableEq, Repr

/-- Result of `memset(&wDateTime, 0, sizeof(wDateTime))`: every field is zero. -/
def zeroDateTime : tDateTime :=
  { mDate := { mDay := 0, mMonth := 0, mYear := 0 },
    mTime := { mHour := 0, mMinute := 0, mSecond := 0 } }

end DateTimeNS

namespace MessageNS

/-- Task addresses named in `TimeManager.cpp`; every other address is `OTHER`. -/
inductive tAddress where
  | TIME_MANAGER
  | DISPLAY_MANAGER
  | OTHER (n : Nat)
deriving DecidableEq, Repr

/-- Message ids named in `TimeManager.cpp`; every other id is `OTHER`. -/
inductive tMessageId where
  | MGS_STATUS_WIFI_STA_CONNECTED
  | MGS_EVENT_NTP_LASTSYNC_TIME
  | MSG_EVENT_SETTINGS_CHANGED
  | MGS_EVENT_DATETIME_CHANGED
  | OTHER (n : Nat)
deriving DecidableEq, Repr

/-- Bus message with the fields the manager reads and writes. -/
structure Message where
  mSource : tAddress
  mDestination : tAddress
  mId : tMessageId
  mPayload : List Nat
  mPayloadLength : Nat
deriving DecidableEq, Repr

end MessageNS

open DateTimeNS MessageNS

/-- The C library's `struct tm`. -/
structure tm where
  tm_sec : Int
  tm_min : Int
  tm_hour : Int
  tm_mday : Int
  tm_mon : Int
  tm_year : Int
  tm_wday : Int
  tm_yday : Int
  tm_isdst : Int
deriving DecidableEq, Repr

/-- Outcome carried by `NTPEvent_t::event`; the two the manager names, and the rest by code. -/
inductive NTPSyncEventType where
  | timeSyncd
  | partlySync
  | other (code : Int)
deriving DecidableEq, Repr

/-- Calls with an effect outside the manager, in the order they are made. -/
inductive Call where
  | NTP_onNTPSyncEvent
  | NTP_setInterval (seconds : Nat)
  | NTP_setNTPTimeout (ms : Nat)
  | NTP_setTimeZone (tz : String)
  | NTP_begin (server : String) (manualStart : Bool)
  | NTP_setNtpServerName (server : String)
  | settimeofday (tv_sec : Int)
  | SendMessage (m : Message)
deriving DecidableEq, Repr

/-- Byte offsets, in the stack frame of `GetNtpTime`, of its locals `wHour`, `wMinute`, `wSecond`,
`wDay`, `wMonth` (one byte each) and `wYear` (two bytes). -/
structure Frame where
  wHour : Nat
  wMinute : Nat
  wSecond : Nat
  wDay : Nat
  wMonth : Nat
  wYear : Nat
deriving DecidableEq, Repr

/-- The six locals lie apart: no two of them share a byte. -/
def Frame.valid (f : Frame) : Prop :=
  f.wHour ≠ f.wMinute ∧ f.wHour ≠ f.wSecond ∧ f.wHour ≠ f.wDay ∧ f.wHour ≠ f.wMonth ∧
  f.wMinute ≠ f.wSecond ∧ f.wMinute ≠ f.wDay ∧ f.wMinute ≠ f.wMonth ∧
  f.wSecond ≠ f.wDay ∧ f.wSecond ≠ f.wMonth ∧ f.wDay ≠ f.wMonth ∧
  f.wHour ≠ f.wYear ∧ f.wHour ≠ f.wYear + 1 ∧ f.wMinute ≠ f.wYear ∧ f.wMinute ≠ f.wYear + 1 ∧
  f.wSecond ≠ f.wYear ∧ f.wSecond ≠ f.wYear + 1 ∧ f.wDay ≠ f.wYear ∧ f.wDay ≠ f.wYear + 1 ∧
  f.wMonth ≠ f.wYear ∧ f.wMonth ≠ f.wYear + 1

/-- What `TimeManager.cpp` uses and does not define, over a device state `D`. -/
structure Platform (D : Type) where
  /-- Device state after a call with an effect. -/
  exec : D → Call → D
  /-- The C library, `time(nullptr)`. -/
  time : D → Int
  /-- The C library, `localtime(&t)`. -/
  localtime : D → Int → tm
  /-- The C library, the value `mktime(&tm)` returns. -/
  mktime : D → tm → Int
  /-- The client, `NTP.getLastNTPSync()`. -/
  NTP_getLastNTPSync : D → Int
  /-- The client, `NTP.getTimeStr()`. -/
  NTP_getTimeStr : D → String
  /-- The client, `NTP.getDateStr()`. -/
  NTP_getDateStr : D → String
  /-- The store, `Settings.GetValue<uint8_t>(ConfigNS::mKeyNtpServer, ConfigNS::mDefaultNtpServer)`. -/
  Settings_NtpServer : D → Nat
  /-- The store, `Settings.GetValue<uint8_t>(ConfigNS::mKeyTimeZone, ConfigNS::mDefaultTimeZone)`. -/
  Settings_TimeZone : D → Nat
  /-- Table `ConfigNS::mcNtpServerItems`. -/
  mcNtpServerItems : Nat → String
  /-- Table `ConfigNS::mcTimezones`. -/
  mcTimezones : Nat → String
  /-- Packing `DateTimeNS::DateTimeToDword` of `DateTime.h`. -/
  DateTimeToDword : tDateTime → Nat
  /-- Writer `SerializeNS::SerializeData(dword, payload)`: the size it returns and the payload after it. -/
  SerializeData : Nat → List Nat → Nat × List Nat
  /-- A default-constructed `MessageNS::Message`. -/
  newMessage : Message
  /-- Content of a local `tDateTime` that is declared and never assigned. -/
  indeterminate : D → tDateTime
  /-- The C library, the `int` a `%d` conversion stores for a number that does not fit an `int`
  (libraries saturate or wrap; the C standard leaves it open). -/
  intOverflow : Int → Int
  /-- Where the compiler put the six locals `wHour` .. `wYear` of `GetNtpTime`. -/
  frame : Frame

/-- Devices together with the log of the calls made so far. -/
structure World (D : Type) where
  dev : D
  log : List Call

/-- Make one call with an effect: log it and let the platform react. -/
def World.call {D : Type} (P : Platform D) (w : World D) (c : Call) : World D :=
  { dev := P.exec w.dev c, log := w.log ++ [c] }

/-- Member variables of `class TimeManager` that the handlers use. -/
structure TimeManager where
  mSentTime : tDateTime
  mNtpTimeSynced : Bool
  mNtpServer : Nat
  mTimeZone : Nat
deriving DecidableEq, Repr

/-- Constant `NTP_TIMEOUT`. -/
def NTP_TIMEOUT : Nat := 5000

/-- Constant `NTP_SYNC_PERIOD`. -/
def NTP_SYNC_PERIOD : Nat := 600

/-- Constant `mPeriodicalTaskTimerId`. -/
def mPeriodicalTaskTimerId : Nat := 0x01

/-- Storing an `int` in a `uint8_t`. -/
def toUInt8 (v : Int) : Nat := (v % 256).toNat

/-- Storing an `int` in a `uint16_t`. -/
def toUInt16 (v : Int) : Nat := (v % 65536).toNat

/-! ## `sscanf` with the formats `"%d:%d:%d"` and `"%d/%d/%d"` -/

/-- The C library's `isspace` in the C locale. -/
def isspace (c : Char) : Bool := c.toNat = 32 || (9 ≤ c.toNat && c.toNat ≤ 13)

/-- White space skipped in front of a `%d` conversion. -/
def skipSpaces : List Char → List Char
  | [] => []
  | c :: cs => if isspace c then skipSpaces cs else c :: cs

/-- The longest run of decimal digits, accumulated in base ten, and the rest of the input. -/
def scanDigits (acc : Nat) : List Char → Nat × List Char
  | [] => (acc, [])
  | c :: cs => if c.isDigit then scanDigits (acc * 10 + (c.toNat - 48)) cs else (acc, c :: cs)

/-- The `int` a `%d` conversion yields for the number `v` written in the input: `v` itself when
it fits 32 bits, and what the library at hand does (`ovf`) when it does not. -/
def toCInt (ovf : Int → Int) (v : Int) : Int :=
  if -2147483648 ≤ v ∧ v ≤ 2147483647 then v else ovf v

/-- One `%d` conversion: white space, an optional sign, at least one digit. -/
def scanInt (ovf : Int → Int) (s : List Char) : Option (Int × List Char) :=
  match skipSpaces s with
  | [] => none
  | c :: cs =>
    if c = '-' then
      match cs with
      | [] => none
      | c1 :: _ =>
        if c1.isDigit then
          some (toCInt ovf (-((scanDigits 0 cs).1 : Int)), (scanDigits 0 cs).2)
        else none
    else if c = '+' then
      match cs with
      | [] => none
      | c1 :: _ =>
        if c1.isDigit then some (toCInt ovf ((scanDigits 0 cs).1 : Int), (scanDigits 0 cs).2)
        else none
    else if c.isDigit then
      some (toCInt ovf ((scanDigits 0 (c :: cs)).1 : Int), (scanDigits 0 (c :: cs)).2)
    else none

/-- A literal character of the format: it has to be the next input character. -/
def scanLit (sep : Char) : List Char → Option (List Char)
  | [] => none
  | c :: cs => if c = sep then some cs else none

/-- The C library call `sscanf(str, "%d<sep>%d<sep>%d", ..)`: the value it returns (the number
of conversions made, or -1 when the input ends before the first one) and the `int`s it
converted, in the order it stores them. -/
def sscanf3 (ovf : Int → Int) (str : String) (sep : Char) : Int × List Int :=
  match scanInt ovf str.toList with
  | none => (if (skipSpaces str.toList).isEmpty then -1 else 0, [])
  | some (a, r1) =>
    match (scanLit sep r1).bind (scanInt ovf) with
    | none => (1, [a])
    | some (b, r2) =>
      match (scanLit sep r2).bind (scanInt ovf) with
      | none => (2, [a, b])
      | some (c, _) => (3, [a, b, c])

/-! ## The stores `sscanf` makes through the pointers it is given

`%d` stores an `int`: four bytes, least significant first (the target is little-endian), at the
address it is handed. `GetNtpTime` hands it the addresses of one-byte and two-byte locals, so a
store also writes the three (two) bytes that follow the local. -/

/-- Byte `k` of the 32-bit two's complement representation of `v`. -/
def byteOf (v : Int) (k : Nat) : Nat := (v % 4294967296).toNat / 256 ^ k % 256

/-- Stack bytes after an `int` is stored at offset `a`. -/
def storeInt (mem : Nat → Nat) (a : Nat) (v : Int) : Nat → Nat :=
  fun x => if a ≤ x ∧ x < a + 4 then byteOf v (x - a) else mem x

/-- Reading a `uint8_t` local at offset `a`. -/
def loadUInt8 (mem : Nat → Nat) (a : Nat) : Nat := mem a

/-- Reading a `uint16_t` local at offset `a`. -/
def loadUInt16 (mem : Nat → Nat) (a : Nat) : Nat := mem a + 256 * mem (a + 1)

namespace TimeManager

/-- Method `TimeManager::GetLocalTime`. -/
def GetLocalTime {D : Type} (P : Platform D) (d : D) : tDateTime :=
  let wTime := P.time d
  let wpLocalTime := P.localtime d wTime
  { mDate := { mDay := toUInt8 wpLocalTime.tm_mday,
               mMonth := toUInt8 (wpLocalTime.tm_mon + 1),
               mYear := toUInt16 (wpLocalTime.tm_year + 1900) },
    mTime := { mHour := toUInt8 wpLocalTime.tm_hour,
               mMinute := toUInt8 wpLocalTime.tm_min,
               mSecond := toUInt8 wpLocalTime.tm_sec } }

/-- Method `TimeManager::Init`: the member variables after it (the task timer is framework state,
and `mNtpTimeSynced` keeps the initialiser `false` of its declaration). -/
def Init {D : Type} (P : Platform D) (w : World D) : TimeManager × World D :=
  let mSentTime := GetLocalTime P w.dev
  let w1 := w.call P Call.NTP_onNTPSyncEvent
  let mNtpServer := P.Settings_NtpServer w1.dev
  let mTimeZone := P.Settings_TimeZone w1.dev
  let w2 := w1.call P (Call.NTP_setTimeZone (P.mcTimezones mTimeZone))
  let w3 := w2.call P (Call.NTP_setInterval NTP_SYNC_PERIOD)
  let w4 := w3.call P (Call.NTP_setNTPTimeout NTP_TIMEOUT)
  ({ mSentTime := mSentTime, mNtpTimeSynced := false,
     mNtpServer := mNtpServer, mTimeZone := mTimeZone }, w4)

/-- Method `TimeManager::SetLocalTime(aHour, aMinute, aSecond, aDay, aMonth, aYear)`. -/
def SetLocalTime6 {D : Type} (P : Platform D) (w : World D)
    (aHour aMinute aSecond aDay aMonth aYear : Nat) : World D :=
  let wTime := P.time w.dev
  let wpLocalTime := P.localtime w.dev wTime
  let wpLocalTime : tm :=
    { wpLocalTime with
      tm_mday := ((aDay % 256 : Nat) : Int),
      tm_mon := ((aMonth % 256 : Nat) : Int) - 1,
      tm_year := ((aYear % 65536 : Nat) : Int) - 1900,
      tm_hour := ((aHour % 256 : Nat) : Int),
      tm_min := ((aMinute % 256 : Nat) : Int),
      tm_sec := ((aSecond % 256 : Nat) : Int) }
  let wNewTime := P.mktime w.dev wpLocalTime
  w.call P (Call.settimeofday wNewTime)

/-- Method `TimeManager::SetLocalTime(aDateTime)`. -/
def SetLocalTime {D : Type} (P : Platform D) (w : World D) (aDateTime : tDateTime) : World D :=
  SetLocalTime6 P w aDateTime.mTime.mHour aDateTime.mTime.mMinute aDateTime.mTime.mSecond
    aDateTime.mDate.mDay aDateTime.mDate.mMonth aDateTime.mDate.mYear

/-- Method `TimeManager::GetNtpTime`. The local `wDateTime` is zeroed only when no sync ever
happened; when one of the two `sscanf` calls does not return 3 it is returned as declared.
When both return 3, the six `int`s have been stored, in the order hour, minute, second, day,
month, year, at the addresses of the six locals, and the fields are what the locals hold after
the last store (every byte of every local has been written by then, so the frame may start
from any content). Bytes stored outside the six locals are not followed. -/
def GetNtpTime {D : Type} (P : Platform D) (d : D) : tDateTime :=
  let wDateTime := P.indeterminate d
  if P.NTP_getLastNTPSync d ≠ 0 then
    let rTime := sscanf3 P.intOverflow (P.NTP_getTimeStr d) ':'
    let rDate := sscanf3 P.intOverflow (P.NTP_getDateStr d) '/'
    if rTime.1 = 3 ∧ rDate.1 = 3 then
      match rTime.2, rDate.2 with
      | [aHour, aMinute, aSecond], [aDay, aMonth, aYear] =>
        let mem : Nat → Nat := fun _ => 0
        let mem := storeInt mem P.frame.wHour aHour
        let mem := storeInt mem P.frame.wMinute aMinute
        let mem := storeInt mem P.frame.wSecond aSecond
        let mem := storeInt mem P.frame.wDay aDay
        let mem := storeInt mem P.frame.wMonth aMonth
        let mem := storeInt mem P.frame.wYear aYear
        { mDate := { mDay := loadUInt8 mem P.frame.wDay,
                     mMonth := loadUInt8 mem P.frame.wMonth,
                     mYear := loadUInt16 mem P.frame.wYear },
          mTime := { mHour := loadUInt8 mem P.frame.wHour,
                     mMinute := loadUInt8 mem P.frame.wMinute,
                     mSecond := loadUInt8 mem P.frame.wSecond } }
      | _, _ => wDateTime
    else wDateTime
  else zeroDateTime

/-- Method `TimeManager::SetLocalTimeFromNTP`. -/
def SetLocalTimeFromNTP {D : Type} (P : Platform D) (s : TimeManager) (w : World D) : World D :=
  if s.mNtpTimeSynced then
    let wNTPTime := GetNtpTime P w.dev
    SetLocalTime P w wNTPTime
  else w

/-- Method `TimeManager::SendTime`. -/
def SendTime {D : Type} (P : Platform D) (s : TimeManager) (w : World D) :
    TimeManager × World D :=
  if s.mNtpTimeSynced then
    let wCurrTime := GetLocalTime P w.dev
    if s.mSentTime.mTime.mHour ≠ wCurrTime.mTime.mHour ∨
        s.mSentTime.mTime.mMinute ≠ wCurrTime.mTime.mMinute then
      let wMessage : Message :=
        { P.newMessage with
          mSource := tAddress.TIME_MANAGER,
          mDestination := tAddress.DISPLAY_MANAGER,
          mId := tMessageId.MGS_EVENT_DATETIME_CHANGED }
      let wDword := P.DateTimeToDword wCurrTime
      let r := P.SerializeData wDword wMessage.mPayload
      let w1 :=
        if r.1 = 4 then
          w.call P (Call.SendMessage { wMessage with mPayload := r.2, mPayloadLength := 4 })
        else w
      ({ s with mSentTime := wCurrTime }, w1)
    else (s, w)
  else (s, w)

/-- Method `TimeManager::ProcessTimerEvent`. -/
def ProcessTimerEvent {D : Type} (P : Platform D) (s : TimeManager) (w : World D)
    (aTimerId : Nat) : TimeManager × World D :=
  if aTimerId = mPeriodicalTaskTimerId then SendTime P s w else (s, w)

/-- Method `TimeManager::ProcessIncomingMessage`. -/
def ProcessIncomingMessage {D : Type} (P : Platform D) (s : TimeManager) (w : World D)
    (arMessage : Message) : TimeManager × World D :=
  match arMessage.mId with
  | tMessageId.MGS_STATUS_WIFI_STA_CONNECTED =>
    let wNtpServerIndex := P.Settings_NtpServer w.dev
    (s, w.call P (Call.NTP_begin (P.mcNtpServerItems wNtpServerIndex) false))
  | tMessageId.MGS_EVENT_NTP_LASTSYNC_TIME =>
    let s1 := { s with mNtpTimeSynced := true }
    (s1, SetLocalTimeFromNTP P s1 w)
  | tMessageId.MSG_EVENT_SETTINGS_CHANGED =>
    let wNtpServer := P.Settings_NtpServer w.dev
    let wTimeZone := P.Settings_TimeZone w.dev
    if wNtpServer ≠ s.mNtpServer then
      let s1 := { s with mTimeZone := wTimeZone, mNtpServer := wNtpServer }
      (s1, w.call P (Call.NTP_setNtpServerName (P.mcNtpServerItems s1.mNtpServer)))
    else if wTimeZone ≠ s.mTimeZone then
      let s1 := { s with mTimeZone := wTimeZone }
      let w1 := w.call P (Call.NTP_setTimeZone (P.mcTimezones s1.mTimeZone))
      if s1.mNtpTimeSynced then
        let w2 := SetLocalTimeFromNTP P s1 w1
        SendTime P s1 w2
      else (s1, w1)
    else (s, w)
  | _ => (s, w)

/-- Method `TimeManager::HandleNTPSyncEvent`, the callback registered with the client. -/
def HandleNTPSyncEvent {D : Type} (P : Platform D) (s : TimeManager) (w : World D)
    (aEvent : NTPSyncEventType) : TimeManager × World D :=
  match aEvent with
  | NTPSyncEventType.timeSyncd | NTPSyncEventType.partlySync =>
    let wMessage : Message :=
      { P.newMessage with
        mSource := tAddress.TIME_MANAGER,
        mDestination := tAddress.TIME_MANAGER,
        mId := tMessageId.MGS_EVENT_NTP_LASTSYNC_TIME }
    let wNTPTime := GetNtpTime P w.dev
    let wDword := P.DateTimeToDword wNTPTime
    let r := P.SerializeData wDword wMessage.mPayload
    (s, w.call P (Call.SendMessage { wMessage with mPayload := r.2 }))
  | _ => (s, w)

end TimeManager

/-! ## The event stream -/

/-- One entry of the task's queue: a timer event or a message. -/
inductive Event where
  | timer (aTimerId : Nat)
  | message (arMessage : Message)
deriving DecidableEq, Repr

/-- Whether a queue entry is the sync-completed message `MGS_EVENT_NTP_LASTSYNC_TIME`. -/
def isSyncCompleted : Event → Bool
  | Event.message arMessage => decide (arMessage.mId = tMessageId.MGS_EVENT_NTP_LASTSYNC_TIME)
  | Event.timer _ => false

/-- Whether a queue entry is a timer event. -/
def isTimer : Event → Bool
  | Event.timer _ => true
  | Event.message _ => false

/-- Modelled from the spec: the worker loop of `ApplicationNS::Task` (not in `src/`), which takes
one queue entry at a time and calls `ProcessTimerEvent` or `ProcessIncomingMessage` with it.
The handler starts on the devices as they are at that moment, with an empty log. -/
def step {D : Type} (P : Platform D) (s : TimeManager) (d : D) (e : Event) :
    TimeManager × World D :=
  match e with
  | Event.timer aTimerId => TimeManager.ProcessTimerEvent P s { dev := d, log := [] } aTimerId
  | Event.message arMessage =>
    TimeManager.ProcessIncomingMessage P s { dev := d, log := [] } arMessage

/-- Modelled from the spec: the worker loop over a finite stream; each entry comes with the
device state found when it is handled. Gives, per entry, the manager after it and its calls. -/
def trace {D : Type} (P : Platform D) (s : TimeManager) :
    List (D × Event) → List (TimeManager × List Call)
  | [] => []
  | x :: rest => ((step P s x.1 x.2).1, (step P s x.1 x.2).2.log) :: trace P (step P s x.1 x.2).1 rest

/-- Modelled from the spec: the worker loop over a finite stream, giving the manager at the end
and every call made on the way. -/
def run {D : Type} (P : Platform D) (s : TimeManager) :
    List (D × Event) → TimeManager × List Call
  | [] => (s, [])
  | x :: rest =>
    ((run P (step P s x.1 x.2).1 rest).1,
      (step P s x.1 x.2).2.log ++ (run P (step P s x.1 x.2).1 rest).2)

/-- The `MGS_EVENT_DATETIME_CHANGED` messages among the calls of a log. -/
def emitted : List Call → List Message
  | [] => []
  | Call.SendMessage m :: cs =>
    if m.mId = tMessageId.MGS_EVENT_DATETIME_CHANGED then m :: emitted cs else emitted cs
  | _ :: cs => emitted cs

/-- The wall-clock writes (`settimeofday`) among the calls of a log. -/
def wallClockWrites : List Call → List Int
  | [] => []
  | Call.settimeofday t :: cs => t :: wallClockWrites cs
  | _ :: cs => wallClockWrites cs

/-- The messages handed to the communication manager among the calls of a log. -/
def sentMessages : List Call → List Message
  | [] => []
  | Call.SendMessage m :: cs => m :: sentMessages cs
  | _ :: cs => sentMessages cs

/-- The `tv_sec` that `SetLocalTime(aDateTime)` hands to `settimeofday` on devices `d`: `mktime`
of the current `localtime` with its six calendar fields replaced by those of `aDateTime`. -/
def wallClockValue {D : Type} (P : Platform D) (d : D) (aDateTime : tDateTime) : Int :=
  P.mktime d
    { P.localtime d (P.time d) with
      tm_mday := ((aDateTime.mDate.mDay % 256 : Nat) : Int),
      tm_mon := ((aDateTime.mDate.mMonth % 256 : Nat) : Int) - 1,
      tm_year := ((aDateTime.mDate.mYear % 65536 : Nat) : Int) - 1900,
      tm_hour := ((aDateTime.mTime.mHour % 256 : Nat) : Int),
      tm_min := ((aDateTime.mTime.mMinute % 256 : Nat) : Int),
      tm_sec := ((aDateTime.mTime.mSecond % 256 : Nat) : Int) }

/-- The devices right after `NTP.setTimeZone(ConfigNS::mcTimezones[i])`, `i` being the timezone
index the settings store holds, starting from devices `d` and an empty log. -/
def afterTimeZone {D : Type} (P : Platform D) (d : D) : World D :=
  World.call P { dev := d, log := [] }
    (Call.NTP_setTimeZone (P.mcTimezones (P.Settings_TimeZone d)))

/-- The devices after that reconfiguration and `SetLocalTime(GetNtpTime())` made on top of it. -/
def afterTimeZoneAndClock {D : Type} (P : Platform D) (d : D) : World D :=
  TimeManager.SetLocalTime P (afterTimeZone P d)
    (TimeManager.GetNtpTime P (afterTimeZone P d).dev)

/-! ## A test bench: in-memory devices -/

namespace Bench

/-- Days since 1970-01-01 of a civil date (proleptic Gregorian calendar). -/
def daysFromCivil (y m d : Int) : Int :=
  let y1 := if m ≤ 2 then y - 1 else y
  let era := y1 / 400
  let yoe := y1 - era * 400
  let mp := if m > 2 then m - 3 else m + 9
  let doy := (153 * mp + 2) / 5 + d - 1
  let doe := yoe * 365 + yoe / 4 - yoe / 100 + doy
  era * 146097 + doe - 719468

/-- Civil date (year, month, day) of a day count since 1970-01-01. -/
def civilFromDays (z : Int) : Int × Int × Int :=
  let z1 := z + 719468
  let era := z1 / 146097
  let doe := z1 - era * 146097
  let yoe := (doe - doe / 1460 + doe / 36524 - doe / 146096) / 365
  let doy := doe - (365 * yoe + yoe / 4 - yoe / 100)
  let mp := (5 * doy + 2) / 153
  let d := doy - (153 * mp + 2) / 5 + 1
  let m := if mp < 10 then mp + 3 else mp - 9
  (if m ≤ 2 then yoe + era * 400 + 1 else yoe + era * 400, m, d)

/-- Bench `localtime`: the clock runs in UTC without daylight saving. -/
def localtimeUTC (t : Int) : tm :=
  let days := t / 86400
  let secs := t % 86400
  let ymd := civilFromDays days
  { tm_sec := secs % 60, tm_min := secs / 60 % 60, tm_hour := secs / 3600,
    tm_mday := ymd.2.2, tm_mon := ymd.2.1 - 1, tm_year := ymd.1 - 1900,
    tm_wday := (days + 4) % 7, tm_yday := days - daysFromCivil ymd.1 1 1, tm_isdst := 0 }

/-- Bench `mktime`: seconds since the epoch of the calendar fields, read as UTC. -/
def mktimeUTC (t : tm) : Int :=
  daysFromCivil (t.tm_year + 1900) (t.tm_mon + 1) t.tm_mday * 86400
    + t.tm_hour * 3600 + t.tm_min * 60 + t.tm_sec

/-- Bench devices: the system clock, the time client and the settings store. -/
structure Dev where
  now : Int
  lastSync : Int
  timeStr : String
  dateStr : String
  tz : String
  server : String
  settingsNtpServer : Nat
  settingsTimeZone : Nat
  outbox : List Message
deriving DecidableEq, Repr

/-- Bench reaction to a call: the clock is set, the client keeps its configuration, the bus
keeps the message. -/
def exec (d : Dev) : Call → Dev
  | Call.settimeofday t => { d with now := t }
  | Call.NTP_setTimeZone z => { d with tz := z }
  | Call.NTP_setNtpServerName n => { d with server := n }
  | Call.NTP_begin n _ => { d with server := n }
  | Call.SendMessage m => { d with outbox := d.outbox ++ [m] }
  | _ => d

/-- Bench packing of a date and time in 32 bits (year counted from 2000 in six bits). -/
def packDateTime (t : tDateTime) : Nat :=
  (((((t.mDate.mYear - 2000) % 64 * 16 + t.mDate.mMonth % 16) * 32 + t.mDate.mDay % 32) * 32
    + t.mTime.mHour % 32) * 64 + t.mTime.mMinute % 64) * 64 + t.mTime.mSecond % 64

/-- Bench serializer: four little-endian bytes when it works, nothing written when it does not. -/
def serialize (works : Bool) (v : Nat) (buf : List Nat) : Nat × List Nat :=
  if works then (4, [v % 256, v / 256 % 256, v / 65536 % 256, v / 16777216 % 256]) else (0, buf)

/-- Bench `%d` overflow: saturation at the bounds of `int`. -/
def saturate (v : Int) : Int := if v < 0 then -2147483648 else 2147483647

/-- A frame in which every local has four bytes to itself: no store reaches another local. -/
def apartFrame : Frame :=
  { wHour := 0, wMinute := 4, wSecond := 8, wDay := 12, wMonth := 16, wYear := 20 }

/-- A frame in which the locals are packed in reverse order of declaration, `wYear` lowest:
every store but the last is overwritten by the ones after it. -/
def packedFrame : Frame :=
  { wHour := 6, wMinute := 5, wSecond := 4, wDay := 3, wMonth := 2, wYear := 0 }

/-- Bench platform on a given frame; `works` says whether the serializer succeeds, `junk` is
what an unassigned local `tDateTime` holds. -/
def platformAt (frame : Frame) (works : Bool) (junk : tDateTime) : Platform Dev :=
  { exec := exec,
    time := fun d => d.now,
    localtime := fun _ t => localtimeUTC t,
    mktime := fun _ t => mktimeUTC t,
    NTP_getLastNTPSync := fun d => d.lastSync,
    NTP_getTimeStr := fun d => d.timeStr,
    NTP_getDateStr := fun d => d.dateStr,
    Settings_NtpServer := fun d => d.settingsNtpServer,
    Settings_TimeZone := fun d => d.settingsTimeZone,
    mcNtpServerItems := fun i => ["pool.ntp.org", "time.google.com"].getD i "",
    mcTimezones := fun i => ["UTC0", "CET-1CEST,M3.5.0,M10.5.0/3"].getD i "",
    DateTimeToDword := packDateTime,
    SerializeData := serialize works,
    newMessage :=
      { mSource := tAddress.OTHER 0, mDestination := tAddress.OTHER 0,
        mId := tMessageId.OTHER 0, mPayload := [], mPayloadLength := 0 },
    indeterminate := fun _ => junk,
    intOverflow := saturate,
    frame := frame }

/-- Bench platform on the frame whose locals lie four bytes apart. -/
def platform (works : Bool) (junk : tDateTime) : Platform Dev :=
  platformAt apartFrame works junk

/-- Date and time from six numbers. -/
def dateTime (y mo d h mi s : Nat) : tDateTime :=
  { mDate := { mDay := d, mMonth := mo, mYear := y },
    mTime := { mHour := h, mMinute := mi, mSecond := s } }

/-- Bench devices on 25/12/2023 at the given time of day, the client synced and reporting
`timeStr`, the settings store holding the given indices. -/
def devAt (h mi s : Int) (timeStr : String) (srv tzi : Nat) : Dev :=
  { now := 1703462400 + h * 3600 + mi * 60 + s, lastSync := 1703462400,
    timeStr := timeStr, dateStr := "25/12/2023", tz := "UTC0", server := "pool.ntp.org",
    settingsNtpServer := srv, settingsTimeZone := tzi, outbox := [] }

/-- Manager that last notified 00:00:00 on 25/12/2023, with server index 0 and timezone index 0. -/
def managerAtMidnight (synced : Bool) : TimeManager :=
  { mSentTime := dateTime 2023 12 25 0 0 0, mNtpTimeSynced := synced,
    mNtpServer := 0, mTimeZone := 0 }

/-- Manager that last notified 10:15:00 on 25/12/2023, with server index 0 and timezone index 0. -/
def managerAt1015 (synced : Bool) : TimeManager :=
  { mSentTime := dateTime 2023 12 25 10 15 0, mNtpTimeSynced := synced,
    mNtpServer := 0, mTimeZone := 0 }

end Bench

namespace Bench

/-- A message with the given id and an empty payload. -/
def msg (mId : tMessageId) : Message :=
  { mSource := tAddress.OTHER 7, mDestination := tAddress.TIME_MANAGER, mId := mId,
    mPayload := [], mPayloadLength := 0 }

/-- A stream without a sync-completed message: ticks on two timer ids, connectivity, a
timezone change, a server change and an unknown message. -/
def quietStream : List (Dev × Event) :=
  [ (devAt 10 16 1 "10:16:01" 0 0, Event.timer 1),
    (devAt 10 16 2 "10:16:02" 0 0, Event.message (msg tMessageId.MGS_STATUS_WIFI_STA_CONNECTED)),
    (devAt 10 17 0 "10:17:00" 0 1, Event.message (msg tMessageId.MSG_EVENT_SETTINGS_CHANGED)),
    (devAt 10 18 0 "10:18:00" 1 1, Event.message (msg tMessageId.MSG_EVENT_SETTINGS_CHANGED)),
    (devAt 10 19 0 "10:19:00" 1 1, Event.message (msg (tMessageId.OTHER 99))),
    (devAt 10 20 0 "10:20:00" 1 1, Event.timer 2),
    (devAt 10 21 0 "10:21:00" 1 1, Event.timer 1) ]

/-- A stream of ticks and sync-completed messages, all within the minute 10:16. -/
def minuteStream : List (Dev × Event) :=
  [ (devAt 10 16 1 "10:16:01" 0 0, Event.timer 1),
    (devAt 10 16 5 "10:16:05" 0 0, Event.message (msg tMessageId.MGS_EVENT_NTP_LASTSYNC_TIME)),
    (devAt 10 16 10 "10:16:10" 0 0, Event.timer 1),
    (devAt 10 16 11 "10:16:11" 0 0, Event.timer 1),
    (devAt 10 16 30 "10:16:30" 0 0, Event.message (msg tMessageId.MGS_EVENT_NTP_LASTSYNC_TIME)),
    (devAt 10 16 31 "10:16:31" 0 0, Event.timer 2),
    (devAt 10 16 59 "10:16:59" 0 0, Event.timer 1) ]

/-- The message `HandleNTPSyncEvent` posts when the client reports 10:15:00 on 25/12/2023. -/
def syncMessage1015 : Message :=
  { mSource := tAddress.TIME_MANAGER, mDestination := tAddress.TIME_MANAGER,
    mId := tMessageId.MGS_EVENT_NTP_LASTSYNC_TIME,
    mPayload := (serialize true (packDateTime (dateTime 2023 12 25 10 15 0)) []).2,
    mPayloadLength := 0 }

end Bench

/-- The frame after the six stores of a successful pair of `sscanf` calls, as `GetNtpTime`
reads it. -/
def frameAfterScan (f : Frame) (aHour aMinute aSecond aDay aMonth aYear : Int) : Nat → Nat :=
  storeInt (storeInt (storeInt (storeInt (storeInt (storeInt (fun _ => 0)
    f.wHour aHour) f.wMinute aMinute) f.wSecond aSecond) f.wDay aDay) f.wMonth aMonth)
    f.wYear aYear

/-! ## Basic facts about the handlers -/

section Lemmas

variable {D : Type}

theorem emitted_append (l1 l2 : List Call) : emitted (l1 ++ l2) = emitted l1 ++ emitted l2 := by
  induction l1 with
  | nil => rfl
  | cons c cs ih =>
    cases c with
    | SendMessage m =>
      by_cases h : m.mId = tMessageId.MGS_EVENT_DATETIME_CHANGED <;>
        simp [emitted, h, ih]
    | _ => simp [emitted, ih]

theorem wallClockWrites_append (l1 l2 : List Call) :
    wallClockWrites (l1 ++ l2) = wallClockWrites l1 ++ wallClockWrites l2 := by
  induction l1 with
  | nil => rfl
  | cons c cs ih => cases c <;> simp [wallClockWrites, ih]

theorem SendTime_unsynced (P : Platform D) (s : TimeManager) (w : World D)
    (hs : s.mNtpTimeSynced = false) : TimeManager.SendTime P s w = (s, w) := by
  simp [TimeManager.SendTime, hs]

theorem SendTime_same_minute (P : Platform D) (s : TimeManager) (w : World D)
    (hh : s.mSentTime.mTime.mHour = (TimeManager.GetLocalTime P w.dev).mTime.mHour)
    (hm : s.mSentTime.mTime.mMinute = (TimeManager.GetLocalTime P w.dev).mTime.mMinute) :
    TimeManager.SendTime P s w = (s, w) := by
  simp [TimeManager.SendTime, hh, hm]

theorem SendTime_synced_flag (P : Platform D) (s : TimeManager) (w : World D) :
    (TimeManager.SendTime P s w).1.mNtpTimeSynced = s.mNtpTimeSynced := by
  unfold TimeManager.SendTime
  by_cases hs : s.mNtpTimeSynced = true
  · by_cases hd : s.mSentTime.mTime.mHour ≠ (TimeManager.GetLocalTime P w.dev).mTime.mHour ∨
        s.mSentTime.mTime.mMinute ≠ (TimeManager.GetLocalTime P w.dev).mTime.mMinute
    · simp only [hs, hd, if_true]
    · simp only [hs, hd, if_true, if_false]
  · simp [hs]

theorem ProcessTimerEvent_synced_flag (P : Platform D) (s : TimeManager) (w : World D)
    (aTimerId : Nat) :
    (TimeManager.ProcessTimerEvent P s w aTimerId).1.mNtpTimeSynced = s.mNtpTimeSynced := by
  unfold TimeManager.ProcessTimerEvent
  split
  · exact SendTime_synced_flag P s w
  · rfl

theorem ProcessIncomingMessage_sync (P : Platform D) (s : TimeManager) (w : World D)
    (m : Message) (hm : m.mId = tMessageId.MGS_EVENT_NTP_LASTSYNC_TIME) :
    TimeManager.ProcessIncomingMessage P s w m
      = ({ s with mNtpTimeSynced := true },
          TimeManager.SetLocalTime P w (TimeManager.GetNtpTime P w.dev)) := by
  simp [TimeManager.ProcessIncomingMessage, hm, TimeManager.SetLocalTimeFromNTP]

theorem ProcessIncomingMessage_keeps_synced (P : Platform D) (s : TimeManager) (w : World D)
    (m : Message) (hs : s.mNtpTimeSynced = true) :
    (TimeManager.ProcessIncomingMessage P s w m).1.mNtpTimeSynced = true := by
  unfold TimeManager.ProcessIncomingMessage
  split
  · exact hs
  · rfl
  · simp only
    split
    · exact hs
    · split
      · simp only [hs, if_true]
        rw [SendTime_synced_flag]
      · exact hs
  · exact hs

theorem ProcessIncomingMessage_unsynced (P : Platform D) (s : TimeManager) (w : World D)
    (m : Message) (hs : s.mNtpTimeSynced = false)
    (hm : m.mId ≠ tMessageId.MGS_EVENT_NTP_LASTSYNC_TIME) :
    (TimeManager.ProcessIncomingMessage P s w m).1.mNtpTimeSynced = false ∧
      emitted (TimeManager.ProcessIncomingMessage P s w m).2.log = emitted w.log ∧
      (TimeManager.ProcessIncomingMessage P s w m).1.mSentTime = s.mSentTime := by
  unfold TimeManager.ProcessIncomingMessage
  split
  · simp [hs, World.call, emitted_append, emitted]
  · exact absurd (by assumption) hm
  · simp only
    split
    · simp [hs, World.call, emitted_append, emitted]
    · split
      · simp [hs, World.call, emitted_append, emitted]
      · simp [hs]
  · simp [hs]

theorem step_unsynced (P : Platform D) (s : TimeManager) (d : D) (e : Event)
    (hs : s.mNtpTimeSynced = false) (he : isSyncCompleted e = false) :
    (step P s d e).1.mNtpTimeSynced = false ∧ emitted (step P s d e).2.log = [] := by
  cases e with
  | timer aTimerId =>
    simp only [step, TimeManager.ProcessTimerEvent]
    split
    · rw [SendTime_unsynced P s _ hs]; exact ⟨hs, rfl⟩
    · exact ⟨hs, rfl⟩
  | message m =>
    have hm : m.mId ≠ tMessageId.MGS_EVENT_NTP_LASTSYNC_TIME := by
      simpa [isSyncCompleted] using he
    have h := ProcessIncomingMessage_unsynced P s { dev := d, log := [] } m hs hm
    exact ⟨h.1, h.2.1⟩

theorem step_keeps_synced (P : Platform D) (s : TimeManager) (d : D) (e : Event)
    (hs : s.mNtpTimeSynced = true) : (step P s d e).1.mNtpTimeSynced = true := by
  cases e with
  | timer aTimerId => simp only [step]; rw [ProcessTimerEvent_synced_flag]; exact hs
  | message m => exact ProcessIncomingMessage_keeps_synced P s _ m hs

theorem trace_keeps_synced (P : Platform D) (evs : List (D × Event)) :
    ∀ s : TimeManager, s.mNtpTimeSynced = true →
      ∀ r ∈ trace P s evs, r.1.mNtpTimeSynced = true := by
  induction evs with
  | nil => intro s _ r hr; simp [trace] at hr
  | cons x rest ih =>
    intro s hs r hr
    simp only [trace, List.mem_cons] at hr
    have h1 := step_keeps_synced P s x.1 x.2 hs
    rcases hr with hr | hr
    · rw [hr]; exact h1
    · exact ih _ h1 r hr

theorem trace_unsynced (P : Platform D) (evs : List (D × Event)) :
    ∀ s : TimeManager, s.mNtpTimeSynced = false →
      (∀ x ∈ evs, isSyncCompleted x.2 = false) →
      ∀ r ∈ trace P s evs, r.1.mNtpTimeSynced = false ∧ emitted r.2 = [] := by
  induction evs with
  | nil => intro s _ _ r hr; simp [trace] at hr
  | cons x rest ih =>
    intro s hs hev r hr
    simp only [trace, List.mem_cons] at hr
    have h1 := step_unsynced P s x.1 x.2 hs (hev x (List.mem_cons_self _ _))
    rcases hr with hr | hr
    · rw [hr]; exact h1
    · exact ih _ h1.1 (fun y hy => hev y (List.mem_cons_of_mem _ hy)) r hr

theorem SendTime_emitted_le_one (P : Platform D) (s : TimeManager) (d : D) :
    (emitted (TimeManager.SendTime P s { dev := d, log := [] }).2.log).length ≤ 1 ∧
      (emitted (TimeManager.SendTime P s { dev := d, log := [] }).2.log ≠ [] →
        (TimeManager.SendTime P s { dev := d, log := [] }).1.mSentTime
          = TimeManager.GetLocalTime P d) := by
  by_cases hs : s.mNtpTimeSynced = true
  · by_cases hd : s.mSentTime.mTime.mHour ≠ (TimeManager.GetLocalTime P d).mTime.mHour ∨
        s.mSentTime.mTime.mMinute ≠ (TimeManager.GetLocalTime P d).mTime.mMinute
    · by_cases hser : (P.SerializeData (P.DateTimeToDword (TimeManager.GetLocalTime P d))
          P.newMessage.mPayload).1 = 4
      · simp [TimeManager.SendTime, hs, hd, hser, World.call, emitted]
      · simp [TimeManager.SendTime, hs, hd, hser, emitted]
    · simp [TimeManager.SendTime, hs, hd, emitted]
  · simp [TimeManager.SendTime, hs, emitted]

theorem sync_step (P : Platform D) (s : TimeManager) (d : D) (e : Event)
    (he : isSyncCompleted e = true) :
    (step P s d e).1.mSentTime = s.mSentTime ∧ emitted (step P s d e).2.log = [] := by
  cases e with
  | timer aTimerId => simp [isSyncCompleted] at he
  | message m =>
    have hm : m.mId = tMessageId.MGS_EVENT_NTP_LASTSYNC_TIME := by
      simpa [isSyncCompleted] using he
    simp only [step]
    rw [ProcessIncomingMessage_sync P s _ m hm]
    simp [TimeManager.SetLocalTime, TimeManager.SetLocalTime6, World.call, emitted]

/-- One entry of a stream of timer events and sync-completed messages, every reading taken by a
timer event having hour `h` and minute `m`: at most one notification, and once `mSentTime` has
that hour and minute none, with `mSentTime` keeping them. -/
theorem step_same_minute (P : Platform D) (s : TimeManager) (d : D) (e : Event) (h m : Nat)
    (he : isTimer e = true ∨ isSyncCompleted e = true)
    (hread : isTimer e = true →
      (TimeManager.GetLocalTime P d).mTime.mHour = h ∧
        (TimeManager.GetLocalTime P d).mTime.mMinute = m) :
    (emitted (step P s d e).2.log).length ≤ 1 ∧
      (emitted (step P s d e).2.log ≠ [] →
        (step P s d e).1.mSentTime.mTime.mHour = h ∧
          (step P s d e).1.mSentTime.mTime.mMinute = m) ∧
      ((s.mSentTime.mTime.mHour = h ∧ s.mSentTime.mTime.mMinute = m) →
        emitted (step P s d e).2.log = [] ∧
          (step P s d e).1.mSentTime.mTime.mHour = h ∧
          (step P s d e).1.mSentTime.mTime.mMinute = m) := by
  cases e with
  | timer aTimerId =>
    have hr := hread rfl
    simp only [step, TimeManager.ProcessTimerEvent]
    by_cases hid : aTimerId = mPeriodicalTaskTimerId
    · simp only [hid, if_true]
      have h1 := SendTime_emitted_le_one P s d
      refine ⟨h1.1, ?_, ?_⟩
      · intro hne; rw [h1.2 hne]; exact hr
      · rintro ⟨hh, hm⟩
        rw [SendTime_same_minute P s _ (hh.trans hr.1.symm) (hm.trans hr.2.symm)]
        exact ⟨rfl, hh, hm⟩
    · simp only [hid, if_false]
      exact ⟨by simp [emitted], fun hne => absurd rfl hne, fun hq => ⟨rfl, hq⟩⟩
  | message msg =>
    have hsync : isSyncCompleted (Event.message msg) = true := by
      rcases he with he | he
      · simp [isTimer] at he
      · exact he
    have h1 := sync_step P s d _ hsync
    refine ⟨by simp [h1.2], fun hne => absurd h1.2 hne, ?_⟩
    rintro ⟨hh, hm⟩
    exact ⟨h1.2, by rw [h1.1]; exact hh, by rw [h1.1]; exact hm⟩

theorem run_quiet (P : Platform D) (h m : Nat) (evs : List (D × Event)) :
    ∀ s : TimeManager,
      (∀ x ∈ evs, isTimer x.2 = true ∨ isSyncCompleted x.2 = true) →
      (∀ x ∈ evs, isTimer x.2 = true →
        (TimeManager.GetLocalTime P x.1).mTime.mHour = h ∧
          (TimeManager.GetLocalTime P x.1).mTime.mMinute = m) →
      (s.mSentTime.mTime.mHour = h ∧ s.mSentTime.mTime.mMinute = m) →
      emitted (run P s evs).2 = [] := by
  induction evs with
  | nil => intro s _ _ _; rfl
  | cons x rest ih =>
    intro s hev hread hq
    have h1 := (step_same_minute P s x.1 x.2 h m (hev x (List.mem_cons_self _ _))
      (hread x (List.mem_cons_self _ _))).2.2 hq
    simp only [run, emitted_append, h1.1, List.nil_append]
    exact ih _ (fun y hy => hev y (List.mem_cons_of_mem _ hy))
      (fun y hy => hread y (List.mem_cons_of_mem _ hy)) h1.2

theorem run_emitted_le_one (P : Platform D) (h m : Nat) (evs : List (D × Event)) :
    ∀ s : TimeManager,
      (∀ x ∈ evs, isTimer x.2 = true ∨ isSyncCompleted x.2 = true) →
      (∀ x ∈ evs, isTimer x.2 = true →
        (TimeManager.GetLocalTime P x.1).mTime.mHour = h ∧
          (TimeManager.GetLocalTime P x.1).mTime.mMinute = m) →
      (emitted (run P s evs).2).length ≤ 1 := by
  induction evs with
  | nil => intro s _ _; simp [run, emitted]
  | cons x rest ih =>
    intro s hev hread
    have h1 := step_same_minute P s x.1 x.2 h m (hev x (List.mem_cons_self _ _))
      (hread x (List.mem_cons_self _ _))
    have hev2 : ∀ y ∈ rest, isTimer y.2 = true ∨ isSyncCompleted y.2 = true :=
      fun y hy => hev y (List.mem_cons_of_mem _ hy)
    have hread2 : ∀ y ∈ rest, isTimer y.2 = true →
        (TimeManager.GetLocalTime P y.1).mTime.mHour = h ∧
          (TimeManager.GetLocalTime P y.1).mTime.mMinute = m :=
      fun y hy => hread y (List.mem_cons_of_mem _ hy)
    simp only [run, emitted_append, List.length_append]
    by_cases hne : emitted (step P s x.1 x.2).2.log = []
    · rw [hne]; simpa using ih _ hev2 hread2
    · rw [run_quiet P h m rest _ hev2 hread2 (h1.2.1 hne)]
      simpa using h1.1

theorem SetLocalTime_eq (P : Platform D) (w : World D) (t : tDateTime) :
    TimeManager.SetLocalTime P w t = w.call P (Call.settimeofday (wallClockValue P w.dev t)) :=
  rfl

theorem SendTime_log (P : Platform D) (s : TimeManager) (w : World D) :
    (TimeManager.SendTime P s w).2.log
      = w.log ++ (TimeManager.SendTime P s { dev := w.dev, log := [] }).2.log := by
  by_cases hs : s.mNtpTimeSynced = true
  · by_cases hd : s.mSentTime.mTime.mHour ≠ (TimeManager.GetLocalTime P w.dev).mTime.mHour ∨
        s.mSentTime.mTime.mMinute ≠ (TimeManager.GetLocalTime P w.dev).mTime.mMinute
    · by_cases hser : (P.SerializeData (P.DateTimeToDword (TimeManager.GetLocalTime P w.dev))
          P.newMessage.mPayload).1 = 4
      · simp [TimeManager.SendTime, hs, hd, hser, World.call]
      · simp [TimeManager.SendTime, hs, hd, hser]
    · simp [TimeManager.SendTime, hs, hd]
  · simp [TimeManager.SendTime, hs]

theorem SendTime_wallClockWrites (P : Platform D) (s : TimeManager) (d : D) :
    wallClockWrites (TimeManager.SendTime P s { dev := d, log := [] }).2.log = [] := by
  by_cases hs : s.mNtpTimeSynced = true
  · by_cases hd : s.mSentTime.mTime.mHour ≠ (TimeManager.GetLocalTime P d).mTime.mHour ∨
        s.mSentTime.mTime.mMinute ≠ (TimeManager.GetLocalTime P d).mTime.mMinute
    · by_cases hser : (P.SerializeData (P.DateTimeToDword (TimeManager.GetLocalTime P d))
          P.newMessage.mPayload).1 = 4
      · simp [TimeManager.SendTime, hs, hd, hser, World.call, wallClockWrites]
      · simp [TimeManager.SendTime, hs, hd, hser, wallClockWrites]
    · simp [TimeManager.SendTime, hs, hd, wallClockWrites]
  · simp [TimeManager.SendTime, hs, wallClockWrites]

theorem ProcessIncomingMessage_timezone (P : Platform D) (s : TimeManager) (d : D) (m : Message)
    (hm : m.mId = tMessageId.MSG_EVENT_SETTINGS_CHANGED)
    (hsrv : P.Settings_NtpServer d = s.mNtpServer)
    (htz : P.Settings_TimeZone d ≠ s.mTimeZone) :
    TimeManager.ProcessIncomingMessage P s { dev := d, log := [] } m
      = if s.mNtpTimeSynced = true then
          TimeManager.SendTime P { s with mTimeZone := P.Settings_TimeZone d }
            (afterTimeZoneAndClock P d)
        else ({ s with mTimeZone := P.Settings_TimeZone d }, afterTimeZone P d) := by
  by_cases hs : s.mNtpTimeSynced = true
  · simp [TimeManager.ProcessIncomingMessage, hm, hsrv, htz, hs, afterTimeZoneAndClock,
      afterTimeZone, TimeManager.SetLocalTimeFromNTP]
  · simp [TimeManager.ProcessIncomingMessage, hm, hsrv, htz, hs, afterTimeZone]

theorem SendTime_emitted_iff (P : Platform D) (s : TimeManager) (d : D) (hs : s.mNtpTimeSynced = true) :
    (emitted (TimeManager.SendTime P s { dev := d, log := [] }).2.log ≠ [] ↔
      ((s.mSentTime.mTime.mHour ≠ (TimeManager.GetLocalTime P d).mTime.mHour ∨
          s.mSentTime.mTime.mMinute ≠ (TimeManager.GetLocalTime P d).mTime.mMinute) ∧
        (P.SerializeData (P.DateTimeToDword (TimeManager.GetLocalTime P d))
          P.newMessage.mPayload).1 = 4)) := by
  by_cases hd : s.mSentTime.mTime.mHour ≠ (TimeManager.GetLocalTime P d).mTime.mHour ∨
      s.mSentTime.mTime.mMinute ≠ (TimeManager.GetLocalTime P d).mTime.mMinute
  · by_cases hser : (P.SerializeData (P.DateTimeToDword (TimeManager.GetLocalTime P d))
        P.newMessage.mPayload).1 = 4
    · simp [TimeManager.SendTime, hs, hd, hser, World.call, emitted]
    · simp [TimeManager.SendTime, hs, hd, hser, emitted]
  · simp [TimeManager.SendTime, hs, hd, emitted]

theorem SendTime_log_sends (P : Platform D) (s : TimeManager) (d : D) :
    ∀ c ∈ (TimeManager.SendTime P s { dev := d, log := [] }).2.log,
      ∃ msg, c = Call.SendMessage msg := by
  by_cases hs : s.mNtpTimeSynced = true
  · by_cases hd : s.mSentTime.mTime.mHour ≠ (TimeManager.GetLocalTime P d).mTime.mHour ∨
        s.mSentTime.mTime.mMinute ≠ (TimeManager.GetLocalTime P d).mTime.mMinute
    · by_cases hser : (P.SerializeData (P.DateTimeToDword (TimeManager.GetLocalTime P d))
          P.newMessage.mPayload).1 = 4
      · simp [TimeManager.SendTime, hs, hd, hser, World.call]
      · simp [TimeManager.SendTime, hs, hd, hser]
    · simp [TimeManager.SendTime, hs, hd]
  · simp [TimeManager.SendTime, hs]

theorem GetNtpTime_never_synced (P : Platform D) (d : D) (h : P.NTP_getLastNTPSync d = 0) :
    TimeManager.GetNtpTime P d = zeroDateTime := by
  simp [TimeManager.GetNtpTime, h]

theorem GetNtpTime_parsed_example :
    TimeManager.GetNtpTime (Bench.platform true (Bench.dateTime 2019 7 4 12 34 56))
        (Bench.devAt 10 15 0 "00:23:56" 0 0) = Bench.dateTime 2023 12 25 0 23 56 := by
  decide

theorem GetNtpTime_parse_failure (P : Platform D) (d : D) (h : P.NTP_getLastNTPSync d ≠ 0)
    (hp : (sscanf3 P.intOverflow (P.NTP_getTimeStr d) ':').1 ≠ 3 ∨
      (sscanf3 P.intOverflow (P.NTP_getDateStr d) '/').1 ≠ 3) :
    TimeManager.GetNtpTime P d = P.indeterminate d := by
  have hn : ¬ ((sscanf3 P.intOverflow (P.NTP_getTimeStr d) ':').1 = 3 ∧
      (sscanf3 P.intOverflow (P.NTP_getDateStr d) '/').1 = 3) := by
    rintro ⟨h1, h2⟩
    rcases hp with hp | hp
    · exact hp h1
    · exact hp h2
  simp [TimeManager.GetNtpTime, h, hn]

theorem SendTime_failed_encode (P : Platform D) (s : TimeManager) (w : World D)
    (hs : s.mNtpTimeSynced = true)
    (hd : s.mSentTime.mTime.mHour ≠ (TimeManager.GetLocalTime P w.dev).mTime.mHour ∨
      s.mSentTime.mTime.mMinute ≠ (TimeManager.GetLocalTime P w.dev).mTime.mMinute)
    (hser : (P.SerializeData (P.DateTimeToDword (TimeManager.GetLocalTime P w.dev))
      P.newMessage.mPayload).1 ≠ 4) :
    TimeManager.SendTime P s w
      = ({ s with mSentTime := TimeManager.GetLocalTime P w.dev }, w) := by
  simp [TimeManager.SendTime, hs, hd, hser]

/-! ### The stores of `sscanf` on any frame -/

theorem byteOf_of_small (v : Int) (k : Nat) (h0 : 0 ≤ v) (hv : v < 256) (hk : 1 ≤ k) :
    byteOf v k = 0 := by
  unfold byteOf
  have h1 : v % 4294967296 = v := Int.emod_eq_of_lt h0 (by omega)
  rw [h1]
  have h2 : v.toNat < 256 := by omega
  have h3 : 256 ^ 1 ≤ 256 ^ k := Nat.pow_le_pow_right (by norm_num) hk
  have h4 : v.toNat / 256 ^ k = 0 := Nat.div_eq_of_lt (by omega)
  rw [h4]

theorem byteOf_of_small16 (v : Int) (k : Nat) (h0 : 0 ≤ v) (hv : v < 65536) (hk : 2 ≤ k) :
    byteOf v k = 0 := by
  unfold byteOf
  have h1 : v % 4294967296 = v := Int.emod_eq_of_lt h0 (by omega)
  rw [h1]
  have h2 : v.toNat < 65536 := by omega
  have h3 : 256 ^ 2 ≤ 256 ^ k := Nat.pow_le_pow_right (by norm_num) hk
  have h4 : v.toNat / 256 ^ k = 0 := Nat.div_eq_of_lt (by omega)
  rw [h4]

theorem byteOf_zero_index (v : Int) (h0 : 0 ≤ v) (hv : v < 256) : byteOf v 0 = v.toNat := by
  unfold byteOf
  have h1 : v % 4294967296 = v := Int.emod_eq_of_lt h0 (by omega)
  rw [h1]
  have h2 : v.toNat < 256 := by omega
  simp
  omega

/-- What a one-byte local holds after its own store of `v` and the later stores. -/
theorem storeInt_later_small (mem : Nat → Nat) (a x : Nat) (v : Int) (h0 : 0 ≤ v)
    (hv : v < 256) (hne : x ≠ a) : storeInt mem a v x = mem x ∨ storeInt mem a v x = 0 := by
  unfold storeInt
  by_cases h : a ≤ x ∧ x < a + 4
  · right
    rw [if_pos h]
    exact byteOf_of_small v _ h0 hv (by omega)
  · left
    rw [if_neg h]

theorem storeInt_later_small16 (mem : Nat → Nat) (a x : Nat) (v : Int) (h0 : 0 ≤ v)
    (hv : v < 65536) (hne : x ≠ a) (hne1 : x ≠ a + 1) :
    storeInt mem a v x = mem x ∨ storeInt mem a v x = 0 := by
  unfold storeInt
  by_cases h : a ≤ x ∧ x < a + 4
  · right
    rw [if_pos h]
    exact byteOf_of_small16 v _ h0 hv (by omega)
  · left
    rw [if_neg h]

theorem storeInt_own (mem : Nat → Nat) (a : Nat) (v : Int) (h0 : 0 ≤ v) (hv : v < 256) :
    storeInt mem a v a = v.toNat := by
  unfold storeInt
  rw [if_pos (by omega)]
  simp [byteOf_zero_index v h0 hv]

theorem or_zero_trans {x a b : Nat} (h1 : x = a ∨ x = 0) (h2 : a = b ∨ a = 0) :
    x = b ∨ x = 0 := by
  rcases h1 with h1 | h1
  · rcases h2 with h2 | h2
    · exact Or.inl (h1.trans h2)
    · exact Or.inr (h1.trans h2)
  · exact Or.inr h1

theorem loadUInt16_own (mem : Nat → Nat) (a : Nat) (v : Int) (h0 : 0 ≤ v) (hv : v < 65536) :
    loadUInt16 (storeInt mem a v) a = v.toNat := by
  unfold loadUInt16 storeInt
  rw [if_pos (by omega), if_pos (by omega)]
  unfold byteOf
  have h1 : v % 4294967296 = v := Int.emod_eq_of_lt h0 (by omega)
  rw [h1]
  have h2 : v.toNat < 65536 := by omega
  have e0 : a - a = 0 := by omega
  have e1 : a + 1 - a = 1 := by omega
  rw [e0, e1]
  simp
  omega

/-- The six locals after the six stores, for numbers that fit their locals, on any frame whose
locals lie apart: the year is the number stored, and each one-byte local holds its number or
zero. -/
theorem locals_after_stores (f : Frame) (hf : f.valid) (mem : Nat → Nat)
    (aHour aMinute aSecond aDay aMonth aYear : Int)
    (hH : 0 ≤ aHour ∧ aHour < 256) (hM : 0 ≤ aMinute ∧ aMinute < 256)
    (hS : 0 ≤ aSecond ∧ aSecond < 256) (hD : 0 ≤ aDay ∧ aDay < 256)
    (hMo : 0 ≤ aMonth ∧ aMonth < 256) (hY : 0 ≤ aYear ∧ aYear < 65536) :
    (loadUInt8 (storeInt (storeInt (storeInt (storeInt (storeInt (storeInt mem
        f.wHour aHour) f.wMinute aMinute) f.wSecond aSecond) f.wDay aDay) f.wMonth aMonth)
        f.wYear aYear) f.wHour = aHour.toNat ∨
      loadUInt8 (storeInt (storeInt (storeInt (storeInt (storeInt (storeInt mem
        f.wHour aHour) f.wMinute aMinute) f.wSecond aSecond) f.wDay aDay) f.wMonth aMonth)
        f.wYear aYear) f.wHour = 0) ∧
    (loadUInt8 (storeInt (storeInt (storeInt (storeInt (storeInt (storeInt mem
        f.wHour aHour) f.wMinute aMinute) f.wSecond aSecond) f.wDay aDay) f.wMonth aMonth)
        f.wYear aYear) f.wMinute = aMinute.toNat ∨
      loadUInt8 (storeInt (storeInt (storeInt (storeInt (storeInt (storeInt mem
        f.wHour aHour) f.wMinute aMinute) f.wSecond aSecond) f.wDay aDay) f.wMonth aMonth)
        f.wYear aYear) f.wMinute = 0) ∧
    (loadUInt8 (storeInt (storeInt (storeInt (storeInt (storeInt (storeInt mem
        f.wHour aHour) f.wMinute aMinute) f.wSecond aSecond) f.wDay aDay) f.wMonth aMonth)
        f.wYear aYear) f.wSecond = aSecond.toNat ∨
      loadUInt8 (storeInt (storeInt (storeInt (storeInt (storeInt (storeInt mem
        f.wHour aHour) f.wMinute aMinute) f.wSecond aSecond) f.wDay aDay) f.wMonth aMonth)
        f.wYear aYear) f.wSecond = 0) ∧
    (loadUInt8 (storeInt (storeInt (storeInt (storeInt (storeInt (storeInt mem
        f.wHour aHour) f.wMinute aMinute) f.wSecond aSecond) f.wDay aDay) f.wMonth aMonth)
        f.wYear aYear) f.wDay = aDay.toNat ∨
      loadUInt8 (storeInt (storeInt (storeInt (storeInt (storeInt (storeInt mem
        f.wHour aHour) f.wMinute aMinute) f.wSecond aSecond) f.wDay aDay) f.wMonth aMonth)
        f.wYear aYear) f.wDay = 0) ∧
    (loadUInt8 (storeInt (storeInt (storeInt (storeInt (storeInt (storeInt mem
        f.wHour aHour) f.wMinute aMinute) f.wSecond aSecond) f.wDay aDay) f.wMonth aMonth)
        f.wYear aYear) f.wMonth = aMonth.toNat ∨
      loadUInt8 (storeInt (storeInt (storeInt (storeInt (storeInt (storeInt mem
        f.wHour aHour) f.wMinute aMinute) f.wSecond aSecond) f.wDay aDay) f.wMonth aMonth)
        f.wYear aYear) f.wMonth = 0) ∧
    loadUInt16 (storeInt (storeInt (storeInt (storeInt (storeInt (storeInt mem
        f.wHour aHour) f.wMinute aMinute) f.wSecond aSecond) f.wDay aDay) f.wMonth aMonth)
        f.wYear aYear) f.wYear = aYear.toNat := by
  obtain ⟨n1, n2, n3, n4, n5, n6, n7, n8, n9, n10, n11, n12, n13, n14, n15, n16, n17, n18,
    n19, n20⟩ := hf
  unfold loadUInt8
  refine ⟨?_, ?_, ?_, ?_, ?_, loadUInt16_own _ _ _ hY.1 hY.2⟩
  · refine or_zero_trans (storeInt_later_small16 _ _ _ _ hY.1 hY.2 n11 n12) ?_
    refine or_zero_trans (storeInt_later_small _ _ _ _ hMo.1 hMo.2 n4) ?_
    refine or_zero_trans (storeInt_later_small _ _ _ _ hD.1 hD.2 n3) ?_
    refine or_zero_trans (storeInt_later_small _ _ _ _ hS.1 hS.2 n2) ?_
    refine or_zero_trans (storeInt_later_small _ _ _ _ hM.1 hM.2 n1) ?_
    exact Or.inl (storeInt_own _ _ _ hH.1 hH.2)
  · refine or_zero_trans (storeInt_later_small16 _ _ _ _ hY.1 hY.2 n13 n14) ?_
    refine or_zero_trans (storeInt_later_small _ _ _ _ hMo.1 hMo.2 n7) ?_
    refine or_zero_trans (storeInt_later_small _ _ _ _ hD.1 hD.2 n6) ?_
    refine or_zero_trans (storeInt_later_small _ _ _ _ hS.1 hS.2 n5) ?_
    exact Or.inl (storeInt_own _ _ _ hM.1 hM.2)
  · refine or_zero_trans (storeInt_later_small16 _ _ _ _ hY.1 hY.2 n15 n16) ?_
    refine or_zero_trans (storeInt_later_small _ _ _ _ hMo.1 hMo.2 n9) ?_
    refine or_zero_trans (storeInt_later_small _ _ _ _ hD.1 hD.2 n8) ?_
    exact Or.inl (storeInt_own _ _ _ hS.1 hS.2)
  · refine or_zero_trans (storeInt_later_small16 _ _ _ _ hY.1 hY.2 n17 n18) ?_
    refine or_zero_trans (storeInt_later_small _ _ _ _ hMo.1 hMo.2 n10) ?_
    exact Or.inl (storeInt_own _ _ _ hD.1 hD.2)
  · refine or_zero_trans (storeInt_later_small16 _ _ _ _ hY.1 hY.2 n19 n20) ?_
    exact Or.inl (storeInt_own _ _ _ hMo.1 hMo.2)

theorem GetNtpTime_midnight_every_frame (f : Frame) (hf : f.valid) (d : Bench.Dev)
    (hsync : d.lastSync ≠ 0) (ht : d.timeStr = "00:00:30") (hd : d.dateStr = "25/12/2023") :
    ∃ sc dy mo : Nat, (sc = 30 ∨ sc = 0) ∧ (dy = 25 ∨ dy = 0) ∧ (mo = 12 ∨ mo = 0) ∧
      TimeManager.GetNtpTime (Bench.platformAt f true zeroDateTime) d = Bench.dateTime 2023 mo dy 0 0 sc := by
  have h1 : sscanf3 Bench.saturate "00:00:30" ':' = (3, [0, 0, 30]) := by decide
  have h2 : sscanf3 Bench.saturate "25/12/2023" '/' = (3, [25, 12, 2023]) := by decide
  have h3 := locals_after_stores f hf (fun _ => 0) 0 0 30 25 12 2023
    (by norm_num) (by norm_num) (by norm_num) (by norm_num) (by norm_num) (by norm_num)
  obtain ⟨e1, e2, e3, e4, e5, e6⟩ := h3
  have e1' : loadUInt8 (frameAfterScan f 0 0 30 25 12 2023) f.wHour = 0 := by
    rcases e1 with e | e <;> simpa using e
  have e2' : loadUInt8 (frameAfterScan f 0 0 30 25 12 2023) f.wMinute = 0 := by
    rcases e2 with e | e <;> simpa using e
  refine ⟨loadUInt8 (frameAfterScan f 0 0 30 25 12 2023) f.wSecond,
    loadUInt8 (frameAfterScan f 0 0 30 25 12 2023) f.wDay,
    loadUInt8 (frameAfterScan f 0 0 30 25 12 2023) f.wMonth, e3, e4, e5, ?_⟩
  have e6' : loadUInt16 (frameAfterScan f 0 0 30 25 12 2023) f.wYear = 2023 := e6
  have hg : TimeManager.GetNtpTime (Bench.platformAt f true zeroDateTime) d
      = { mDate := { mDay := loadUInt8 (frameAfterScan f 0 0 30 25 12 2023) f.wDay,
                     mMonth := loadUInt8 (frameAfterScan f 0 0 30 25 12 2023) f.wMonth,
                     mYear := loadUInt16 (frameAfterScan f 0 0 30 25 12 2023) f.wYear },
          mTime := { mHour := loadUInt8 (frameAfterScan f 0 0 30 25 12 2023) f.wHour,
                     mMinute := loadUInt8 (frameAfterScan f 0 0 30 25 12 2023) f.wMinute,
                     mSecond := loadUInt8 (frameAfterScan f 0 0 30 25 12 2023) f.wSecond } } := by
    simp only [TimeManager.GetNtpTime, Bench.platformAt, ht, hd, h1, h2]
    simp [hsync, frameAfterScan]
  rw [hg, e1', e2', e6']
  rfl

/-- A synced manager that last notified 00:00 handles a timezone-only settings change while the
client reports 00:00:30: on every frame whose locals lie apart, no `MGS_EVENT_DATETIME_CHANGED`
message is sent. -/
theorem midnight_change_is_silent (f : Frame) (hf : f.valid) :
    emitted (TimeManager.ProcessIncomingMessage (Bench.platformAt f true zeroDateTime) (Bench.managerAtMidnight true)
      { dev := Bench.devAt 0 0 20 "00:00:30" 0 1, log := [] }
      (Bench.msg tMessageId.MSG_EVENT_SETTINGS_CHANGED)).2.log = [] := by
  have htz : (Bench.platformAt f true zeroDateTime).Settings_TimeZone (Bench.devAt 0 0 20 "00:00:30" 0 1)
      ≠ (Bench.managerAtMidnight true).mTimeZone := by
    show (1 : Nat) ≠ 0
    decide
  have hsync : (Bench.managerAtMidnight true).mNtpTimeSynced = true := rfl
  rw [ProcessIncomingMessage_timezone _ _ _ _ rfl rfl htz, if_pos hsync]
  have hls : (afterTimeZone (Bench.platformAt f true zeroDateTime)
      (Bench.devAt 0 0 20 "00:00:30" 0 1)).dev.lastSync ≠ 0 := by
    show (1703462400 : Int) ≠ 0
    decide
  obtain ⟨sc, dy, mo, hsc, hdy, hmo, hg⟩ := GetNtpTime_midnight_every_frame f hf
    (afterTimeZone (Bench.platformAt f true zeroDateTime) (Bench.devAt 0 0 20 "00:00:30" 0 1)).dev
    hls rfl rfl
  unfold afterTimeZoneAndClock
  rw [hg]
  have key : ∀ sc ∈ [30, 0], ∀ dy ∈ [25, 0], ∀ mo ∈ [12, 0],
      emitted (TimeManager.SendTime (Bench.platformAt Bench.apartFrame true zeroDateTime)
        { Bench.managerAtMidnight true with mTimeZone := 1 }
        (TimeManager.SetLocalTime (Bench.platformAt Bench.apartFrame true zeroDateTime)
          (afterTimeZone (Bench.platformAt Bench.apartFrame true zeroDateTime)
            (Bench.devAt 0 0 20 "00:00:30" 0 1)) (Bench.dateTime 2023 mo dy 0 0 sc))).2.log = [] := by
    decide
  exact key sc (by simpa using hsc) dy (by simpa using hdy) mo (by simpa using hmo)

theorem GetNtpTime_packed_frame_example :
    TimeManager.GetNtpTime (Bench.platformAt Bench.packedFrame true zeroDateTime)
        (Bench.devAt 10 15 0 "00:23:56" 0 0) = Bench.dateTime 2023 0 0 0 0 0 := by
  decide

end Lemmas

/-! ## The claims -/

section Claims

variable {D : Type}

/-- C1: the manager leaves `Init` with `mNtpTimeSynced = false`, and from a manager with
`mNtpTimeSynced = false`, over every finite stream without a sync-completed message (timer
events with any id, connectivity, settings changes, unknown messages) and whatever the devices
report, the manager is unsynced after every entry and no `MGS_EVENT_DATETIME_CHANGED` message
is sent while handling any entry. -/
theorem C1_unsynced_stays_silent (P : Platform D) (w0 : World D) (s : TimeManager)
    (evs : List (D × Event)) (hs : s.mNtpTimeSynced = false)
    (hev : ∀ x ∈ evs, isSyncCompleted x.2 = false) :
    (TimeManager.Init P w0).1.mNtpTimeSynced = false ∧
      ∀ r ∈ trace P s evs, r.1.mNtpTimeSynced = false ∧ emitted r.2 = [] :=
  ⟨rfl, trace_unsynced P evs s hs hev⟩

/-- C1 on the bench: the manager as `Init` leaves it, run over a stream of ticks, connectivity,
settings changes and an unknown message. -/
theorem C1_unsynced_stays_silent_witness :
    ((TimeManager.Init (Bench.platform true zeroDateTime)
        { dev := Bench.devAt 10 15 0 "10:15:00" 0 0, log := [] }).1.mNtpTimeSynced = false ∧
      ∀ x ∈ Bench.quietStream, isSyncCompleted x.2 = false) ∧
    ((TimeManager.Init (Bench.platform true zeroDateTime)
        { dev := Bench.devAt 10 15 0 "10:15:00" 0 0, log := [] }).1.mNtpTimeSynced = false ∧
      ∀ r ∈ trace (Bench.platform true zeroDateTime)
          (TimeManager.Init (Bench.platform true zeroDateTime)
            { dev := Bench.devAt 10 15 0 "10:15:00" 0 0, log := [] }).1 Bench.quietStream,
        r.1.mNtpTimeSynced = false ∧ emitted r.2 = []) :=
  ⟨⟨rfl, by decide⟩,
    C1_unsynced_stays_silent (Bench.platform true zeroDateTime)
      { dev := Bench.devAt 10 15 0 "10:15:00" 0 0, log := [] } _ Bench.quietStream rfl
      (by decide)⟩

/-- C2: handling a sync-completed message (`MGS_EVENT_NTP_LASTSYNC_TIME`) from any manager gives
`mNtpTimeSynced = true`; from a manager with `mNtpTimeSynced = true` every timer event and every
message leaves it true; so it is true after every entry of every stream that follows. -/
theorem C2_synced_is_permanent (P : Platform D) (s : TimeManager) (w : World D) (m : Message)
    (s2 : TimeManager) (evs : List (D × Event))
    (hm : m.mId = tMessageId.MGS_EVENT_NTP_LASTSYNC_TIME) (h2 : s2.mNtpTimeSynced = true) :
    (TimeManager.ProcessIncomingMessage P s w m).1.mNtpTimeSynced = true ∧
      (∀ (w2 : World D) (aTimerId : Nat),
        (TimeManager.ProcessTimerEvent P s2 w2 aTimerId).1.mNtpTimeSynced = true) ∧
      (∀ (w2 : World D) (m2 : Message),
        (TimeManager.ProcessIncomingMessage P s2 w2 m2).1.mNtpTimeSynced = true) ∧
      (∀ r ∈ trace P s2 evs, r.1.mNtpTimeSynced = true) ∧
      (∀ r ∈ trace P s ((w.dev, Event.message m) :: evs), r.1.mNtpTimeSynced = true) := by
  have h1 : ∀ w1 : World D,
      (TimeManager.ProcessIncomingMessage P s w1 m).1.mNtpTimeSynced = true := by
    intro w1; rw [ProcessIncomingMessage_sync P s w1 m hm]
  refine ⟨h1 w, ?_, ?_, trace_keeps_synced P evs s2 h2, ?_⟩
  · intro w2 aTimerId; rw [ProcessTimerEvent_synced_flag]; exact h2
  · intro w2 m2; exact ProcessIncomingMessage_keeps_synced P s2 w2 m2 h2
  · intro r hr
    simp only [trace, List.mem_cons] at hr
    rcases hr with hr | hr
    · rw [hr]; exact h1 _
    · exact trace_keeps_synced P evs _ (h1 _) r hr

/-- C2 on the bench: an unsynced manager handles a sync-completed message and then a stream of
ticks, connectivity, settings changes and an unknown message. -/
theorem C2_synced_is_permanent_witness :
    ((Bench.msg tMessageId.MGS_EVENT_NTP_LASTSYNC_TIME).mId
        = tMessageId.MGS_EVENT_NTP_LASTSYNC_TIME ∧
      (Bench.managerAt1015 true).mNtpTimeSynced = true) ∧
    ∀ r ∈ trace (Bench.platform true zeroDateTime) (Bench.managerAt1015 false)
        ((Bench.devAt 10 15 30 "10:15:30" 0 0,
          Event.message (Bench.msg tMessageId.MGS_EVENT_NTP_LASTSYNC_TIME)) :: Bench.quietStream),
      r.1.mNtpTimeSynced = true :=
  ⟨⟨rfl, rfl⟩,
    (C2_synced_is_permanent (Bench.platform true zeroDateTime) (Bench.managerAt1015 false)
      { dev := Bench.devAt 10 15 30 "10:15:30" 0 0, log := [] }
      (Bench.msg tMessageId.MGS_EVENT_NTP_LASTSYNC_TIME) (Bench.managerAt1015 true)
      Bench.quietStream rfl rfl).2.2.2.2⟩

/-- C3, as the code has it: for a synced manager a periodic tick sends a
`MGS_EVENT_DATETIME_CHANGED` message exactly when the hour or the minute of the wall-clock
reading differs from `mSentTime` and `SerializeData` reports four bytes written. A reading with
the hour and minute of `mSentTime` (whatever its seconds) sends nothing and changes nothing.
When the message is sent it is the only call, it goes from `TIME_MANAGER` to `DISPLAY_MANAGER`
with the serialized `DateTimeToDword` of the reading as payload, and `mSentTime` becomes the
reading. -/
theorem C3_tick_notifies_on_minute_change (P : Platform D) (s : TimeManager) (d : D)
    (hs : s.mNtpTimeSynced = true) :
    (emitted (TimeManager.ProcessTimerEvent P s { dev := d, log := [] }
        mPeriodicalTaskTimerId).2.log ≠ [] ↔
      ((s.mSentTime.mTime.mHour ≠ (TimeManager.GetLocalTime P d).mTime.mHour ∨
          s.mSentTime.mTime.mMinute ≠ (TimeManager.GetLocalTime P d).mTime.mMinute) ∧
        (P.SerializeData (P.DateTimeToDword (TimeManager.GetLocalTime P d))
          P.newMessage.mPayload).1 = 4)) ∧
    ((s.mSentTime.mTime.mHour = (TimeManager.GetLocalTime P d).mTime.mHour ∧
        s.mSentTime.mTime.mMinute = (TimeManager.GetLocalTime P d).mTime.mMinute) →
      TimeManager.ProcessTimerEvent P s { dev := d, log := [] } mPeriodicalTaskTimerId
        = (s, { dev := d, log := [] })) ∧
    (((s.mSentTime.mTime.mHour ≠ (TimeManager.GetLocalTime P d).mTime.mHour ∨
          s.mSentTime.mTime.mMinute ≠ (TimeManager.GetLocalTime P d).mTime.mMinute) ∧
        (P.SerializeData (P.DateTimeToDword (TimeManager.GetLocalTime P d))
          P.newMessage.mPayload).1 = 4) →
      (TimeManager.ProcessTimerEvent P s { dev := d, log := [] } mPeriodicalTaskTimerId).2.log
          = [Call.SendMessage
              { mSource := tAddress.TIME_MANAGER, mDestination := tAddress.DISPLAY_MANAGER,
                mId := tMessageId.MGS_EVENT_DATETIME_CHANGED,
                mPayload := (P.SerializeData (P.DateTimeToDword (TimeManager.GetLocalTime P d))
                  P.newMessage.mPayload).2,
                mPayloadLength := 4 }] ∧
        (TimeManager.ProcessTimerEvent P s { dev := d, log := [] } mPeriodicalTaskTimerId).1
          = { s with mSentTime := TimeManager.GetLocalTime P d }) := by
  refine ⟨?_, ?_, ?_⟩
  · by_cases hd : s.mSentTime.mTime.mHour ≠ (TimeManager.GetLocalTime P d).mTime.mHour ∨
        s.mSentTime.mTime.mMinute ≠ (TimeManager.GetLocalTime P d).mTime.mMinute
    · by_cases hser : (P.SerializeData (P.DateTimeToDword (TimeManager.GetLocalTime P d))
          P.newMessage.mPayload).1 = 4
      · simp [TimeManager.ProcessTimerEvent, TimeManager.SendTime, hs, hd, hser, World.call,
          emitted]
      · simp [TimeManager.ProcessTimerEvent, TimeManager.SendTime, hs, hd, hser, emitted]
    · simp [TimeManager.ProcessTimerEvent, TimeManager.SendTime, hs, hd, emitted]
  · rintro ⟨hh, hm⟩
    simp only [TimeManager.ProcessTimerEvent, if_true]
    exact SendTime_same_minute P s _ hh hm
  · rintro ⟨hd, hser⟩
    simp [TimeManager.ProcessTimerEvent, TimeManager.SendTime, hs, hd, hser, World.call]

/-- C3 on the bench: the manager last notified 10:15:00; the tick at 10:15:59 changes nothing,
the tick at 10:16:01 sends one message with the packed 10:16:01 and stores that reading. -/
theorem C3_tick_notifies_on_minute_change_witness :
    (Bench.managerAt1015 true).mNtpTimeSynced = true ∧
    TimeManager.ProcessTimerEvent (Bench.platform true zeroDateTime) (Bench.managerAt1015 true)
        { dev := Bench.devAt 10 15 59 "10:15:59" 0 0, log := [] } mPeriodicalTaskTimerId
      = (Bench.managerAt1015 true, { dev := Bench.devAt 10 15 59 "10:15:59" 0 0, log := [] }) ∧
    (TimeManager.ProcessTimerEvent (Bench.platform true zeroDateTime) (Bench.managerAt1015 true)
        { dev := Bench.devAt 10 16 1 "10:16:01" 0 0, log := [] } mPeriodicalTaskTimerId).2.log
      = [Call.SendMessage
          { mSource := tAddress.TIME_MANAGER, mDestination := tAddress.DISPLAY_MANAGER,
            mId := tMessageId.MGS_EVENT_DATETIME_CHANGED,
            mPayload := (Bench.serialize true
              (Bench.packDateTime (Bench.dateTime 2023 12 25 10 16 1)) []).2,
            mPayloadLength := 4 }] ∧
    (TimeManager.ProcessTimerEvent (Bench.platform true zeroDateTime) (Bench.managerAt1015 true)
        { dev := Bench.devAt 10 16 1 "10:16:01" 0 0, log := [] } mPeriodicalTaskTimerId).1
      = { Bench.managerAt1015 true with mSentTime := Bench.dateTime 2023 12 25 10 16 1 } :=
  ⟨rfl,
    (C3_tick_notifies_on_minute_change (Bench.platform true zeroDateTime)
      (Bench.managerAt1015 true) (Bench.devAt 10 15 59 "10:15:59" 0 0) rfl).2.1 (by decide),
    (C3_tick_notifies_on_minute_change (Bench.platform true zeroDateTime)
      (Bench.managerAt1015 true) (Bench.devAt 10 16 1 "10:16:01" 0 0) rfl).2.2 (by decide)⟩

/-- C3 as stated fails: the manager is synced, it last notified 10:15 and the wall-clock reads
10:16:01, so the minute differs, yet the tick sends no message, because `SerializeData` does
not report four bytes. -/
theorem C3_counterexample :
    ¬ (emitted (TimeManager.ProcessTimerEvent (Bench.platform false zeroDateTime)
          (Bench.managerAt1015 true) { dev := Bench.devAt 10 16 1 "10:16:01" 0 0, log := [] }
          mPeriodicalTaskTimerId).2.log ≠ [] ↔
        ((Bench.managerAt1015 true).mSentTime.mTime.mHour
            ≠ (TimeManager.GetLocalTime (Bench.platform false zeroDateTime)
                (Bench.devAt 10 16 1 "10:16:01" 0 0)).mTime.mHour ∨
          (Bench.managerAt1015 true).mSentTime.mTime.mMinute
            ≠ (TimeManager.GetLocalTime (Bench.platform false zeroDateTime)
                (Bench.devAt 10 16 1 "10:16:01" 0 0)).mTime.mMinute)) := by
  decide

/-- C4: over every finite stream of timer events and sync-completed messages in which every
wall-clock reading taken by a timer event has the same hour `h` and minute `m`, from any
manager, at most one `MGS_EVENT_DATETIME_CHANGED` message is sent in total; and a periodic tick
that directly follows a periodic tick whose reading had the same hour and minute sends nothing,
makes no call and leaves the manager as it was. -/
theorem C4_one_notification_per_minute (P : Platform D) (s : TimeManager)
    (evs : List (D × Event)) (h m : Nat)
    (hev : ∀ x ∈ evs, isTimer x.2 = true ∨ isSyncCompleted x.2 = true)
    (hread : ∀ x ∈ evs, isTimer x.2 = true →
      (TimeManager.GetLocalTime P x.1).mTime.mHour = h ∧
        (TimeManager.GetLocalTime P x.1).mTime.mMinute = m) :
    (emitted (run P s evs).2).length ≤ 1 ∧
      ∀ d1 d2 : D,
        (TimeManager.GetLocalTime P d1).mTime.mHour
            = (TimeManager.GetLocalTime P d2).mTime.mHour →
        (TimeManager.GetLocalTime P d1).mTime.mMinute
            = (TimeManager.GetLocalTime P d2).mTime.mMinute →
        TimeManager.ProcessTimerEvent P
            (TimeManager.ProcessTimerEvent P s { dev := d1, log := [] }
              mPeriodicalTaskTimerId).1
            { dev := d2, log := [] } mPeriodicalTaskTimerId
          = ((TimeManager.ProcessTimerEvent P s { dev := d1, log := [] }
              mPeriodicalTaskTimerId).1, { dev := d2, log := [] }) := by
  refine ⟨run_emitted_le_one P h m evs s hev hread, ?_⟩
  intro d1 d2 hh hm
  simp only [TimeManager.ProcessTimerEvent, if_true]
  by_cases hs : s.mNtpTimeSynced = true
  · by_cases hd : s.mSentTime.mTime.mHour ≠ (TimeManager.GetLocalTime P d1).mTime.mHour ∨
        s.mSentTime.mTime.mMinute ≠ (TimeManager.GetLocalTime P d1).mTime.mMinute
    · have e1 : (TimeManager.SendTime P s { dev := d1, log := [] }).1.mSentTime
          = TimeManager.GetLocalTime P d1 := by
        simp [TimeManager.SendTime, hs, hd]
      apply SendTime_same_minute
      · rw [e1]; exact hh
      · rw [e1]; exact hm
    · have hd2 : s.mSentTime.mTime.mHour = (TimeManager.GetLocalTime P d1).mTime.mHour ∧
          s.mSentTime.mTime.mMinute = (TimeManager.GetLocalTime P d1).mTime.mMinute := by
        constructor
        · by_contra hc; exact hd (Or.inl hc)
        · by_contra hc; exact hd (Or.inr hc)
      rw [SendTime_same_minute P s _ hd2.1 hd2.2]
      exact SendTime_same_minute P s _ (hd2.1.trans hh) (hd2.2.trans hm)
  · have hs2 : s.mNtpTimeSynced = false := by simpa using hs
    rw [SendTime_unsynced P s _ hs2]
    exact SendTime_unsynced P s _ hs2

/-- C4 on the bench: ticks and sync-completed messages within the minute 10:16. -/
theorem C4_one_notification_per_minute_witness :
    ((∀ x ∈ Bench.minuteStream, isTimer x.2 = true ∨ isSyncCompleted x.2 = true) ∧
      (∀ x ∈ Bench.minuteStream, isTimer x.2 = true →
        (TimeManager.GetLocalTime (Bench.platform true zeroDateTime) x.1).mTime.mHour = 10 ∧
          (TimeManager.GetLocalTime (Bench.platform true zeroDateTime) x.1).mTime.mMinute
            = 16)) ∧
    (emitted (run (Bench.platform true zeroDateTime) (Bench.managerAt1015 false)
      Bench.minuteStream).2).length ≤ 1 :=
  ⟨⟨by decide, by decide⟩,
    (C4_one_notification_per_minute (Bench.platform true zeroDateTime)
      (Bench.managerAt1015 false) Bench.minuteStream 10 16 (by decide) (by decide)).1⟩

/-- C5, the code at the failing input: the manager is synced and last notified 10:15:00, the
wall-clock reads 10:16:01 and `SerializeData` does not report four bytes. `SendTime` sends
nothing, yet `mSentTime` becomes 10:16:01, so the next tick with the same reading, even with a
serializer that works, makes no call at all: the notification for 10:16 is never attempted
again. -/
theorem C5_failed_encode_still_updates_mSentTime :
    (TimeManager.SendTime (Bench.platform false zeroDateTime) (Bench.managerAt1015 true)
        { dev := Bench.devAt 10 16 1 "10:16:01" 0 0, log := [] }).2.log = [] ∧
    (TimeManager.SendTime (Bench.platform false zeroDateTime) (Bench.managerAt1015 true)
        { dev := Bench.devAt 10 16 1 "10:16:01" 0 0, log := [] }).1.mSentTime
      = Bench.dateTime 2023 12 25 10 16 1 ∧
    (TimeManager.SendTime (Bench.platform false zeroDateTime) (Bench.managerAt1015 true)
        { dev := Bench.devAt 10 16 1 "10:16:01" 0 0, log := [] }).1.mSentTime
      ≠ (Bench.managerAt1015 true).mSentTime ∧
    (TimeManager.SendTime (Bench.platform true zeroDateTime)
        (TimeManager.SendTime (Bench.platform false zeroDateTime) (Bench.managerAt1015 true)
          { dev := Bench.devAt 10 16 1 "10:16:01" 0 0, log := [] }).1
        { dev := Bench.devAt 10 16 1 "10:16:01" 0 0, log := [] }).2.log = [] := by
  decide

/-- C6, as the code has it: a settings-changed message with the stored server index and a new
timezone index, handled by a synced manager, calls `NTP.setTimeZone` with the table entry of
the new index, then writes the wall-clock once with `GetNtpTime()` read after that call, then
runs `SendTime` in the same handler: a `MGS_EVENT_DATETIME_CHANGED` message is sent exactly when
the wall-clock read after the write differs from `mSentTime` in hour or minute and
`SerializeData` reports four bytes. An unsynced manager only stores the index and calls
`NTP.setTimeZone`: no wall-clock write and no message. -/
theorem C6_timezone_change_reapplies_time (P : Platform D) (s : TimeManager) (d : D)
    (m : Message) (hm : m.mId = tMessageId.MSG_EVENT_SETTINGS_CHANGED)
    (hsrv : P.Settings_NtpServer d = s.mNtpServer)
    (htz : P.Settings_TimeZone d ≠ s.mTimeZone) :
    (s.mNtpTimeSynced = true →
      TimeManager.ProcessIncomingMessage P s { dev := d, log := [] } m
          = TimeManager.SendTime P { s with mTimeZone := P.Settings_TimeZone d }
              (afterTimeZoneAndClock P d) ∧
        (afterTimeZoneAndClock P d).log
          = [Call.NTP_setTimeZone (P.mcTimezones (P.Settings_TimeZone d)),
             Call.settimeofday (wallClockValue P (afterTimeZone P d).dev
               (TimeManager.GetNtpTime P (afterTimeZone P d).dev))] ∧
        wallClockWrites (TimeManager.ProcessIncomingMessage P s { dev := d, log := [] } m).2.log
          = [wallClockValue P (afterTimeZone P d).dev
               (TimeManager.GetNtpTime P (afterTimeZone P d).dev)] ∧
        (emitted (TimeManager.ProcessIncomingMessage P s { dev := d, log := [] } m).2.log ≠ [] ↔
          ((s.mSentTime.mTime.mHour
                ≠ (TimeManager.GetLocalTime P (afterTimeZoneAndClock P d).dev).mTime.mHour ∨
              s.mSentTime.mTime.mMinute
                ≠ (TimeManager.GetLocalTime P (afterTimeZoneAndClock P d).dev).mTime.mMinute) ∧
            (P.SerializeData
              (P.DateTimeToDword (TimeManager.GetLocalTime P (afterTimeZoneAndClock P d).dev))
              P.newMessage.mPayload).1 = 4))) ∧
    (s.mNtpTimeSynced = false →
      TimeManager.ProcessIncomingMessage P s { dev := d, log := [] } m
          = ({ s with mTimeZone := P.Settings_TimeZone d }, afterTimeZone P d) ∧
        (TimeManager.ProcessIncomingMessage P s { dev := d, log := [] } m).2.log
          = [Call.NTP_setTimeZone (P.mcTimezones (P.Settings_TimeZone d))] ∧
        wallClockWrites (TimeManager.ProcessIncomingMessage P s { dev := d, log := [] } m).2.log
          = [] ∧
        sentMessages (TimeManager.ProcessIncomingMessage P s { dev := d, log := [] } m).2.log
          = []) := by
  have hlog : (afterTimeZoneAndClock P d).log
      = [Call.NTP_setTimeZone (P.mcTimezones (P.Settings_TimeZone d)),
         Call.settimeofday (wallClockValue P (afterTimeZone P d).dev
           (TimeManager.GetNtpTime P (afterTimeZone P d).dev))] := by
    simp [afterTimeZoneAndClock, SetLocalTime_eq, World.call, afterTimeZone]
  constructor
  · intro hs
    have h0 := ProcessIncomingMessage_timezone P s d m hm hsrv htz
    rw [if_pos hs] at h0
    refine ⟨h0, hlog, ?_, ?_⟩
    · rw [h0, SendTime_log, wallClockWrites_append, SendTime_wallClockWrites, hlog]
      simp [wallClockWrites]
    · rw [h0, SendTime_log, emitted_append, hlog]
      have hs2 : ({ s with mTimeZone := P.Settings_TimeZone d } : TimeManager).mNtpTimeSynced
          = true := hs
      have h3 := (SendTime_emitted_iff P { s with mTimeZone := P.Settings_TimeZone d }
        (afterTimeZoneAndClock P d).dev hs2)
      simpa [emitted] using h3
  · intro hs
    have h0 := ProcessIncomingMessage_timezone P s d m hm hsrv htz
    rw [if_neg (by simp [hs])] at h0
    refine ⟨h0, ?_, ?_, ?_⟩ <;> rw [h0] <;>
      simp [afterTimeZone, World.call, wallClockWrites, sentMessages]

/-- C6 on the bench: a synced manager, the timezone index going from 0 to 1. -/
theorem C6_timezone_change_reapplies_time_witness :
    ((Bench.msg tMessageId.MSG_EVENT_SETTINGS_CHANGED).mId
        = tMessageId.MSG_EVENT_SETTINGS_CHANGED ∧
      (Bench.platform true zeroDateTime).Settings_NtpServer
          (Bench.devAt 9 16 20 "10:16:20" 0 1) = (Bench.managerAt1015 true).mNtpServer ∧
      (Bench.platform true zeroDateTime).Settings_TimeZone
          (Bench.devAt 9 16 20 "10:16:20" 0 1) ≠ (Bench.managerAt1015 true).mTimeZone ∧
      (Bench.managerAt1015 true).mNtpTimeSynced = true) ∧
    wallClockWrites (TimeManager.ProcessIncomingMessage (Bench.platform true zeroDateTime)
        (Bench.managerAt1015 true) { dev := Bench.devAt 9 16 20 "10:16:20" 0 1, log := [] }
        (Bench.msg tMessageId.MSG_EVENT_SETTINGS_CHANGED)).2.log
      = [wallClockValue (Bench.platform true zeroDateTime)
          (afterTimeZone (Bench.platform true zeroDateTime)
            (Bench.devAt 9 16 20 "10:16:20" 0 1)).dev
          (TimeManager.GetNtpTime (Bench.platform true zeroDateTime)
            (afterTimeZone (Bench.platform true zeroDateTime)
              (Bench.devAt 9 16 20 "10:16:20" 0 1)).dev)] :=
  ⟨⟨rfl, rfl, by decide, rfl⟩,
    ((C6_timezone_change_reapplies_time (Bench.platform true zeroDateTime)
      (Bench.managerAt1015 true) (Bench.devAt 9 16 20 "10:16:20" 0 1)
      (Bench.msg tMessageId.MSG_EVENT_SETTINGS_CHANGED) rfl rfl (by decide)).1 rfl).2.2.1⟩

/-- C6 as stated fails: the manager is synced and last notified 00:00:00; a settings change
with the same server index and a new timezone index arrives while the client reports
"00:00:30" on "25/12/2023". The hour and the minute the client reports are zero, so they are
zero in `wHour` and `wMinute` wherever the compiler put the locals: on the frame whose locals
lie four bytes apart the wall-clock is written to 2023-12-25 00:00:30 (1703462430), on the
packed frame to 2022-11-30 00:00:00 (1669766400). Either way the wall-clock then reads 00:00,
the minute already notified, and no `MGS_EVENT_DATETIME_CHANGED` message is sent. -/
theorem C6_counterexample :
    (Bench.managerAtMidnight true).mNtpTimeSynced = true ∧
    (Bench.platform true zeroDateTime).Settings_NtpServer (Bench.devAt 0 0 20 "00:00:30" 0 1)
      = (Bench.managerAtMidnight true).mNtpServer ∧
    (Bench.platform true zeroDateTime).Settings_TimeZone (Bench.devAt 0 0 20 "00:00:30" 0 1)
      ≠ (Bench.managerAtMidnight true).mTimeZone ∧
    (TimeManager.ProcessIncomingMessage (Bench.platformAt Bench.apartFrame true zeroDateTime)
        (Bench.managerAtMidnight true) { dev := Bench.devAt 0 0 20 "00:00:30" 0 1, log := [] }
        (Bench.msg tMessageId.MSG_EVENT_SETTINGS_CHANGED)).2.log
      = [Call.NTP_setTimeZone "CET-1CEST,M3.5.0,M10.5.0/3", Call.settimeofday 1703462430] ∧
    (TimeManager.ProcessIncomingMessage (Bench.platformAt Bench.packedFrame true zeroDateTime)
        (Bench.managerAtMidnight true) { dev := Bench.devAt 0 0 20 "00:00:30" 0 1, log := [] }
        (Bench.msg tMessageId.MSG_EVENT_SETTINGS_CHANGED)).2.log
      = [Call.NTP_setTimeZone "CET-1CEST,M3.5.0,M10.5.0/3", Call.settimeofday 1669766400] ∧
    emitted (TimeManager.ProcessIncomingMessage
        (Bench.platformAt Bench.apartFrame true zeroDateTime)
        (Bench.managerAtMidnight true) { dev := Bench.devAt 0 0 20 "00:00:30" 0 1, log := [] }
        (Bench.msg tMessageId.MSG_EVENT_SETTINGS_CHANGED)).2.log = [] ∧
    emitted (TimeManager.ProcessIncomingMessage
        (Bench.platformAt Bench.packedFrame true zeroDateTime)
        (Bench.managerAtMidnight true) { dev := Bench.devAt 0 0 20 "00:00:30" 0 1, log := [] }
        (Bench.msg tMessageId.MSG_EVENT_SETTINGS_CHANGED)).2.log = [] := by
  decide

/-- C7, as the code has it: handling a sync-completed message writes the wall-clock exactly
once, and what it writes is `GetNtpTime()`, read from the time client while the message is
handled; the payload of the message is not read, so two sync-completed messages with any
payloads are handled alike. -/
theorem C7_sync_writes_client_time (P : Platform D) (s : TimeManager) (d : D) (m : Message)
    (hm : m.mId = tMessageId.MGS_EVENT_NTP_LASTSYNC_TIME) :
    wallClockWrites (TimeManager.ProcessIncomingMessage P s { dev := d, log := [] } m).2.log
        = [wallClockValue P d (TimeManager.GetNtpTime P d)] ∧
      (TimeManager.ProcessIncomingMessage P s { dev := d, log := [] } m).2
        = TimeManager.SetLocalTime P { dev := d, log := [] } (TimeManager.GetNtpTime P d) ∧
      ∀ m2 : Message, m2.mId = tMessageId.MGS_EVENT_NTP_LASTSYNC_TIME →
        TimeManager.ProcessIncomingMessage P s { dev := d, log := [] } m2
          = TimeManager.ProcessIncomingMessage P s { dev := d, log := [] } m := by
  refine ⟨?_, ?_, ?_⟩
  · rw [ProcessIncomingMessage_sync P s _ m hm]
    rfl
  · rw [ProcessIncomingMessage_sync P s _ m hm]
  · intro m2 hm2
    rw [ProcessIncomingMessage_sync P s _ m hm, ProcessIncomingMessage_sync P s _ m2 hm2]

/-- C7 on the bench: a sync-completed message handled while the client reports 10:20:00. -/
theorem C7_sync_writes_client_time_witness :
    Bench.syncMessage1015.mId = tMessageId.MGS_EVENT_NTP_LASTSYNC_TIME ∧
    wallClockWrites (TimeManager.ProcessIncomingMessage (Bench.platform true zeroDateTime)
        (Bench.managerAt1015 false) { dev := Bench.devAt 10 20 0 "10:20:00" 0 0, log := [] }
        Bench.syncMessage1015).2.log
      = [wallClockValue (Bench.platform true zeroDateTime) (Bench.devAt 10 20 0 "10:20:00" 0 0)
          (TimeManager.GetNtpTime (Bench.platform true zeroDateTime)
            (Bench.devAt 10 20 0 "10:20:00" 0 0))] :=
  ⟨rfl,
    (C7_sync_writes_client_time (Bench.platform true zeroDateTime) (Bench.managerAt1015 false)
      (Bench.devAt 10 20 0 "10:20:00" 0 0) Bench.syncMessage1015 rfl).1⟩

/-- C7 as stated fails: the callback posts its message while the client reports 10:15:00, so
the payload carries 10:15:00; the message is handled when the client reports 10:20:00, and the
wall-clock is written to 10:20:00 (1703499600), not to the 10:15:00 (1703499300) of the
payload. The same message handled while the client reports 10:21:00 writes another value. -/
theorem C7_counterexample :
    sentMessages (TimeManager.HandleNTPSyncEvent (Bench.platform true zeroDateTime)
        (Bench.managerAt1015 false) { dev := Bench.devAt 10 15 0 "10:15:00" 0 0, log := [] }
        NTPSyncEventType.timeSyncd).2.log = [Bench.syncMessage1015] ∧
    wallClockValue (Bench.platform true zeroDateTime) (Bench.devAt 10 15 1 "10:20:00" 0 0)
        (Bench.dateTime 2023 12 25 10 15 0) = 1703499300 ∧
    wallClockWrites (TimeManager.ProcessIncomingMessage (Bench.platform true zeroDateTime)
        (Bench.managerAt1015 false) { dev := Bench.devAt 10 15 1 "10:20:00" 0 0, log := [] }
        Bench.syncMessage1015).2.log = [1703499600] ∧
    wallClockWrites (TimeManager.ProcessIncomingMessage (Bench.platform true zeroDateTime)
        (Bench.managerAt1015 false) { dev := Bench.devAt 10 15 1 "10:21:00" 0 0, log := [] }
        Bench.syncMessage1015).2.log = [1703499660] := by
  decide

/-- C8, the code at the failing input: a sync has happened (`getLastNTPSync() != 0`), the time
text is "00:23" (the seconds are missing, `sscanf` returns 2) and the date text is
"25/12/2023". `GetNtpTime` returns its local `wDateTime` as it was declared, here holding
2019-07-04 12:34:56, which is not the all-zero value. -/
theorem C8_parse_failure_returns_unassigned_local :
    (Bench.platform true (Bench.dateTime 2019 7 4 12 34 56)).NTP_getLastNTPSync
        (Bench.devAt 10 15 0 "00:23" 0 0) ≠ 0 ∧
    sscanf3 Bench.saturate "00:23" ':' = (2, [0, 23]) ∧
    TimeManager.GetNtpTime (Bench.platform true (Bench.dateTime 2019 7 4 12 34 56))
        (Bench.devAt 10 15 0 "00:23" 0 0) = Bench.dateTime 2019 7 4 12 34 56 ∧
    TimeManager.GetNtpTime (Bench.platform true (Bench.dateTime 2019 7 4 12 34 56))
        (Bench.devAt 10 15 0 "00:23" 0 0) ≠ zeroDateTime := by
  decide

/-- C9: whatever outcome the client hands to `HandleNTPSyncEvent`, the member variables are
unchanged and the wall-clock is not written; for `timeSyncd` and `partlySync` the only call is
one `SendMessage` from `TIME_MANAGER` to `TIME_MANAGER` with id `MGS_EVENT_NTP_LASTSYNC_TIME`
and, as payload, the serialized `DateTimeToDword` of the current `GetNtpTime()`; for every other
outcome there is no call at all. -/
theorem C9_bridge_posts_one_message (P : Platform D) (s : TimeManager) (d : D)
    (aEvent : NTPSyncEventType) :
    (TimeManager.HandleNTPSyncEvent P s { dev := d, log := [] } aEvent).1 = s ∧
      wallClockWrites (TimeManager.HandleNTPSyncEvent P s { dev := d, log := [] } aEvent).2.log
        = [] ∧
      (TimeManager.HandleNTPSyncEvent P s { dev := d, log := [] } aEvent).2.log
        = if aEvent = NTPSyncEventType.timeSyncd ∨ aEvent = NTPSyncEventType.partlySync then
            [Call.SendMessage
              { mSource := tAddress.TIME_MANAGER, mDestination := tAddress.TIME_MANAGER,
                mId := tMessageId.MGS_EVENT_NTP_LASTSYNC_TIME,
                mPayload := (P.SerializeData (P.DateTimeToDword (TimeManager.GetNtpTime P d))
                  P.newMessage.mPayload).2,
                mPayloadLength := P.newMessage.mPayloadLength }]
          else [] := by
  cases aEvent <;> simp [TimeManager.HandleNTPSyncEvent, World.call, wallClockWrites]

/-- C10: a settings-changed message whose server index differs from the stored one, whatever
the timezone index and whether or not the manager is synced, stores both new indices and makes
exactly one call, `NTP.setNtpServerName` with the table entry of the new server index: no
`NTP.setTimeZone`, no wall-clock write, no message, `mNtpTimeSynced` and `mSentTime` unchanged.
A message that changes only the timezone index never calls `NTP.setNtpServerName`, and a
message that changes neither index changes nothing and makes no call. -/
theorem C10_server_change_frame (P : Platform D) (s : TimeManager) (d : D) (m : Message)
    (hm : m.mId = tMessageId.MSG_EVENT_SETTINGS_CHANGED) :
    (P.Settings_NtpServer d ≠ s.mNtpServer →
      (TimeManager.ProcessIncomingMessage P s { dev := d, log := [] } m).1
          = { mSentTime := s.mSentTime, mNtpTimeSynced := s.mNtpTimeSynced,
              mNtpServer := P.Settings_NtpServer d, mTimeZone := P.Settings_TimeZone d } ∧
        (TimeManager.ProcessIncomingMessage P s { dev := d, log := [] } m).2.log
          = [Call.NTP_setNtpServerName (P.mcNtpServerItems (P.Settings_NtpServer d))]) ∧
    (P.Settings_NtpServer d = s.mNtpServer → P.Settings_TimeZone d ≠ s.mTimeZone →
      ∀ name : String, Call.NTP_setNtpServerName name
        ∉ (TimeManager.ProcessIncomingMessage P s { dev := d, log := [] } m).2.log) ∧
    (P.Settings_NtpServer d = s.mNtpServer → P.Settings_TimeZone d = s.mTimeZone →
      TimeManager.ProcessIncomingMessage P s { dev := d, log := [] } m
        = (s, { dev := d, log := [] })) := by
  refine ⟨?_, ?_, ?_⟩
  · intro hsrv
    simp [TimeManager.ProcessIncomingMessage, hm, hsrv, World.call]
  · intro hsrv htz name
    rw [ProcessIncomingMessage_timezone P s d m hm hsrv htz]
    by_cases hs : s.mNtpTimeSynced = true
    · rw [if_pos hs, SendTime_log]
      have h1 : ∀ c ∈ (TimeManager.SendTime P { s with mTimeZone := P.Settings_TimeZone d }
          { dev := (afterTimeZoneAndClock P d).dev, log := [] }).2.log,
          ∃ msg, c = Call.SendMessage msg := SendTime_log_sends P _ _
      intro hmem
      rcases List.mem_append.mp hmem with h | h
      · simp [afterTimeZoneAndClock, SetLocalTime_eq, World.call, afterTimeZone] at h
      · obtain ⟨msg, hc⟩ := h1 _ h
        cases hc
    · rw [if_neg hs]
      simp [afterTimeZone, World.call]
  · intro hsrv htz
    simp [TimeManager.ProcessIncomingMessage, hm, hsrv, htz]

/-- C10 on the bench: the server index going from 0 to 1, only the timezone index going from 0
to 1, and neither index changing. -/
theorem C10_server_change_frame_witness :
    (Bench.msg tMessageId.MSG_EVENT_SETTINGS_CHANGED).mId
        = tMessageId.MSG_EVENT_SETTINGS_CHANGED ∧
    ((Bench.platform true zeroDateTime).Settings_NtpServer (Bench.devAt 10 16 1 "10:16:01" 1 1)
        ≠ (Bench.managerAt1015 true).mNtpServer ∧
      (TimeManager.ProcessIncomingMessage (Bench.platform true zeroDateTime)
          (Bench.managerAt1015 true) { dev := Bench.devAt 10 16 1 "10:16:01" 1 1, log := [] }
          (Bench.msg tMessageId.MSG_EVENT_SETTINGS_CHANGED)).1
        = { mSentTime := Bench.dateTime 2023 12 25 10 15 0, mNtpTimeSynced := true,
            mNtpServer := 1, mTimeZone := 1 } ∧
      (TimeManager.ProcessIncomingMessage (Bench.platform true zeroDateTime)
          (Bench.managerAt1015 true) { dev := Bench.devAt 10 16 1 "10:16:01" 1 1, log := [] }
          (Bench.msg tMessageId.MSG_EVENT_SETTINGS_CHANGED)).2.log
        = [Call.NTP_setNtpServerName "time.google.com"]) ∧
    ((Bench.platform true zeroDateTime).Settings_NtpServer (Bench.devAt 10 16 1 "10:16:01" 0 1)
        = (Bench.managerAt1015 true).mNtpServer ∧
      (Bench.platform true zeroDateTime).Settings_TimeZone (Bench.devAt 10 16 1 "10:16:01" 0 1)
        ≠ (Bench.managerAt1015 true).mTimeZone ∧
      ∀ name : String, Call.NTP_setNtpServerName name
        ∉ (TimeManager.ProcessIncomingMessage (Bench.platform true zeroDateTime)
          (Bench.managerAt1015 true) { dev := Bench.devAt 10 16 1 "10:16:01" 0 1, log := [] }
          (Bench.msg tMessageId.MSG_EVENT_SETTINGS_CHANGED)).2.log) ∧
    ((Bench.platform true zeroDateTime).Settings_NtpServer (Bench.devAt 10 16 1 "10:16:01" 0 0)
        = (Bench.managerAt1015 true).mNtpServer ∧
      (Bench.platform true zeroDateTime).Settings_TimeZone (Bench.devAt 10 16 1 "10:16:01" 0 0)
        = (Bench.managerAt1015 true).mTimeZone ∧
      TimeManager.ProcessIncomingMessage (Bench.platform true zeroDateTime)
          (Bench.managerAt1015 true) { dev := Bench.devAt 10 16 1 "10:16:01" 0 0, log := [] }
          (Bench.msg tMessageId.MSG_EVENT_SETTINGS_CHANGED)
        = (Bench.managerAt1015 true, { dev := Bench.devAt 10 16 1 "10:16:01" 0 0, log := [] })) :=
  ⟨rfl,
    ⟨by decide,
      (C10_server_change_frame (Bench.platform true zeroDateTime) (Bench.managerAt1015 true)
        (Bench.devAt 10 16 1 "10:16:01" 1 1) (Bench.msg tMessageId.MSG_EVENT_SETTINGS_CHANGED)
        rfl).1 (by decide)⟩,
    ⟨rfl, by decide,
      (C10_server_change_frame (Bench.platform true zeroDateTime) (Bench.managerAt1015 true)
        (Bench.devAt 10 16 1 "10:16:01" 0 1) (Bench.msg tMessageId.MSG_EVENT_SETTINGS_CHANGED)
        rfl).2.1 rfl (by decide)⟩,
    ⟨rfl, rfl,
      (C10_server_change_frame (Bench.platform true zeroDateTime) (Bench.managerAt1015 true)
        (Bench.devAt 10 16 1 "10:16:01" 0 0) (Bench.msg tMessageId.MSG_EVENT_SETTINGS_CHANGED)
        rfl).2.2 rfl rfl⟩⟩

end Claims
